import Mathlib

/-!
# Coastal Threat Alert System: data simulation, alerts and preferences

A shallow embedding of the state-bearing logic of `src/app.js` (class
`CoastalAlertSystem`).

Modelling conventions
* JavaScript numbers are exact rationals (`ℚ`); `Math.max`, `Math.min` and
  `Math.floor` are `max`, `min` and `Int.floor`.  Rounding of doubles and the
  non-finite values are outside the model, except for the `NaN` that `parseInt`
  can put into the preference record (`Json.nan`).
* `Math.random()` is a stream `rand : Nat → ℚ` read at a position that every
  call advances by one.
* Times are milliseconds since the epoch (`Int`); `new Date().toISOString()`
  is represented by the instant it renders.  The clock is read once per
  synchronous call.
* JavaScript `undefined` for a looked-up value is `none`.
* The DOM is represented by the values the code reads from it (an element
  that `getElementById` does not find is `none`).
-/

namespace CoastalAlertSystem

/-! ## Data model (constructor, `this.mockData`) -/

/-- An entry of `mockData.coastalRegions`. -/
structure Region where
  id : String
  name : String
  latitude : ℚ
  longitude : ℚ
  threat_level : Option String
  current_threats : List String
  population_at_risk : Int
  last_updated : Int
  deriving DecidableEq, Repr

/-- An entry of `mockData.sensors`. -/
structure Sensor where
  station_id : String
  location : String
  tide_level : ℚ
  wave_height : ℚ
  wind_speed : ℚ
  water_temperature : ℚ
  salinity : ℚ
  ph_level : ℚ
  timestamp : Int
  deriving DecidableEq, Repr

/-- An entry of `mockData.weather`. -/
structure Weather where
  region : String
  temperature : ℚ
  humidity : ℚ
  pressure : ℚ
  wind_direction : String
  wind_speed : ℚ
  visibility : ℚ
  conditions : String
  forecast_48h : String
  deriving DecidableEq, Repr

/-- An entry of `mockData.alerts`. -/
structure Alert where
  id : String
  type : String
  region : String
  severity : String
  issued_at : Int
  expected_impact : String
  recommended_actions : List String
  estimated_affected : Int
  status : String
  deriving DecidableEq, Repr

/-- An entry of `mockData.threatTypes`. -/
structure ThreatType where
  name : String
  color : String
  icon : String
  status : String
  deriving DecidableEq, Repr

/-- The object `this.mockData`. -/
structure MockData where
  coastalRegions : List Region
  sensors : List Sensor
  weather : List Weather
  alerts : List Alert
  threatTypes : List ThreatType
  deriving DecidableEq, Repr

/-- The seed regions of the constructor, built at time `now`. -/
def seedRegions (now : Int) : List Region :=
  [ { id := "region_001", name := "Mumbai Coast", latitude := 19.0760, longitude := 72.8777,
      threat_level := some "medium", current_threats := ["storm_surge", "high_tide"],
      population_at_risk := 50000, last_updated := now },
    { id := "region_002", name := "Chennai Marina", latitude := 13.0827, longitude := 80.2707,
      threat_level := some "low", current_threats := [],
      population_at_risk := 25000, last_updated := now },
    { id := "region_003", name := "Goa Beaches", latitude := 15.2993, longitude := 74.1240,
      threat_level := some "high", current_threats := ["coastal_erosion", "pollution"],
      population_at_risk := 75000, last_updated := now } ]

/-- The seed sensors of the constructor, built at time `now`. -/
def seedSensors (now : Int) : List Sensor :=
  [ { station_id := "STN_001", location := "Mumbai Coast", tide_level := 2.3, wave_height := 1.8,
      wind_speed := 25, water_temperature := 28.5, salinity := 35.2, ph_level := 8.1,
      timestamp := now },
    { station_id := "STN_002", location := "Chennai Marina", tide_level := 1.9, wave_height := 1.2,
      wind_speed := 18, water_temperature := 29.1, salinity := 34.8, ph_level := 8.0,
      timestamp := now },
    { station_id := "STN_003", location := "Goa Beaches", tide_level := 2.7, wave_height := 2.2,
      wind_speed := 32, water_temperature := 27.8, salinity := 35.5, ph_level := 7.9,
      timestamp := now } ]

/-- The seed weather records of the constructor. -/
def seedWeather : List Weather :=
  [ { region := "Mumbai Coast", temperature := 32, humidity := 78, pressure := 1012,
      wind_direction := "SW", wind_speed := 25, visibility := 8,
      conditions := "Partly Cloudy", forecast_48h := "Thunderstorms expected" },
    { region := "Chennai Marina", temperature := 34, humidity := 72, pressure := 1015,
      wind_direction := "SE", wind_speed := 18, visibility := 10,
      conditions := "Clear", forecast_48h := "Stable conditions" },
    { region := "Goa Beaches", temperature := 30, humidity := 85, pressure := 1008,
      wind_direction := "W", wind_speed := 32, visibility := 6,
      conditions := "Overcast", forecast_48h := "Heavy rain expected" } ]

/-- The seed alerts of the constructor, built at time `now`. -/
def seedAlerts (now : Int) : List Alert :=
  [ { id := "ALERT_001", type := "Storm Surge Warning", region := "Mumbai Coast",
      severity := "HIGH", issued_at := now - 45 * 60000,
      expected_impact := "Coastal flooding possible in low-lying areas",
      recommended_actions := ["Evacuate vulnerable areas", "Activate emergency shelters"],
      estimated_affected := 50000, status := "Active" },
    { id := "ALERT_002", type := "Coastal Erosion Alert", region := "Goa Beaches",
      severity := "MEDIUM", issued_at := now - 75 * 60000,
      expected_impact := "Beach infrastructure at risk",
      recommended_actions := ["Monitor beach access", "Deploy protective barriers"],
      estimated_affected := 15000, status := "Active" },
    { id := "ALERT_003", type := "Water Quality Alert", region := "Chennai Marina",
      severity := "LOW", issued_at := now - 2 * 60 * 60000,
      expected_impact := "Minor water quality concerns",
      recommended_actions := ["Continue monitoring", "Inform local authorities"],
      estimated_affected := 5000, status := "Resolved" } ]

/-- The seed threat types of the constructor. -/
def seedThreatTypes : List ThreatType :=
  [ { name := "Storm Surge", color := "#FF4444", icon := "🌊", status := "active" },
    { name := "Coastal Erosion", color := "#FF8800", icon := "🏔️", status := "active" },
    { name := "Water Pollution", color := "#AA4400", icon := "☢️", status := "monitoring" },
    { name := "Illegal Dumping", color := "#666666", icon := "🗑️", status := "clear" },
    { name := "Cyclonic Activity", color := "#8844FF", icon := "🌀", status := "monitoring" },
    { name := "High Tide", color := "#0088FF", icon := "📈", status := "active" } ]

/-- The value of `this.mockData` when the constructor has run at time `now`. -/
def seedData (now : Int) : MockData :=
  { coastalRegions := seedRegions now, sensors := seedSensors now, weather := seedWeather,
    alerts := seedAlerts now, threatTypes := seedThreatTypes }

/-! ## simulateDataUpdates -/

/-- The expression `Math.max(lo, Math.min(hi, x))`. -/
def clamp (lo hi x : ℚ) : ℚ := max lo (min hi x)

/-- The body of `sensors.forEach` for one sensor; `r1 .. r4` are the four
results of `Math.random()` in the order the body draws them. -/
def updateSensor (now : Int) (r1 r2 r3 r4 : ℚ) (s : Sensor) : Sensor :=
  { s with
    tide_level := clamp 0.5 4.0 (s.tide_level + (r1 - 0.5) * 0.05)
    wave_height := clamp 0.2 3.0 (s.wave_height + (r2 - 0.5) * 0.05)
    wind_speed := clamp 5 50 (s.wind_speed + (r3 - 0.5) * 1)
    water_temperature := clamp 20 35 (s.water_temperature + (r4 - 0.5) * 0.1)
    timestamp := now }

/-- The loop `this.mockData.sensors.forEach(...)`: returns the updated sensors
and the position of the random stream after the loop. -/
def updateSensors (now : Int) (rand : Nat → ℚ) : Nat → List Sensor → List Sensor × Nat
  | pos, [] => ([], pos)
  | pos, s :: rest =>
    let s' := updateSensor now (rand pos) (rand (pos + 1)) (rand (pos + 2)) (rand (pos + 3)) s
    let r := updateSensors now rand (pos + 4) rest
    (s' :: r.1, r.2)

/-- The body of `weather.forEach` for one weather record. -/
def updateWeather (r1 r2 r3 r4 : ℚ) (w : Weather) : Weather :=
  { w with
    temperature := clamp 20 40 (w.temperature + (r1 - 0.5) * 0.5)
    humidity := clamp 40 95 (w.humidity + (r2 - 0.5) * 1)
    pressure := clamp 995 1025 (w.pressure + (r3 - 0.5) * 1)
    wind_speed := clamp 5 50 (w.wind_speed + (r4 - 0.5) * 1) }

/-- The loop `this.mockData.weather.forEach(...)`. -/
def updateWeathers (rand : Nat → ℚ) : Nat → List Weather → List Weather × Nat
  | pos, [] => ([], pos)
  | pos, w :: rest =>
    let w' := updateWeather (rand pos) (rand (pos + 1)) (rand (pos + 2)) (rand (pos + 3)) w
    let r := updateWeathers rand (pos + 4) rest
    (w' :: r.1, r.2)

/-- Array indexing `xs[i]` with an integral index: `none` is `undefined`. -/
def jsIndex {α : Type} (xs : List α) (i : Int) : Option α :=
  if 0 ≤ i then xs.get? i.toNat else none

/-- The local constant `levels` of simulateDataUpdates. -/
def levels : List String := ["low", "medium", "high"]

/-- What a call of simulateDataUpdates leaves behind: the data, the position
of the random stream, and the exception that escaped, if any. -/
structure SimResult where
  data : MockData
  pos : Nat
  error : Option String
  deriving Repr

/-- The method `simulateDataUpdates`, called at time `now` with the random
stream at position `pos`.  When the selected region is `undefined` the
assignment to its `threat_level` raises a TypeError, after both loops have
already updated the sensors and the weather and after the right-hand side,
hence the third draw of the branch, has been evaluated. -/
def simulateDataUpdates (now : Int) (rand : Nat → ℚ) (pos : Nat) (d : MockData) : SimResult :=
  let s := updateSensors now rand pos d.sensors
  let w := updateWeathers rand s.2 d.weather
  let d1 : MockData := { d with sensors := s.1, weather := w.1 }
  let p := w.2
  if rand p < 0.05 then
    let idx : Int := ⌊rand (p + 1) * (d.coastalRegions.length : ℚ)⌋
    let lvl : Option String := jsIndex levels ⌊rand (p + 2) * (levels.length : ℚ)⌋
    match jsIndex d.coastalRegions idx with
    | none => { data := d1, pos := p + 3, error := some "TypeError" }
    | some region =>
      { data := { d1 with
          coastalRegions := d.coastalRegions.set idx.toNat
            { region with threat_level := lvl, last_updated := now } }
        pos := p + 3
        error := none }
  else
    { data := d1, pos := p + 1, error := none }

/-- The state after `n` successive calls of simulateDataUpdates, the
`k`-th call (counting from zero) happening at time `clock k`; an exception
that escapes a call ends that call only, as for a timer callback. -/
def runUpdates (clock : Nat → Int) (rand : Nat → ℚ) (pos : Nat) (d : MockData) : Nat → SimResult
  | 0 => { data := d, pos := pos, error := none }
  | n + 1 =>
    let prev := runUpdates clock rand pos d n
    simulateDataUpdates (clock n) rand prev.pos prev.data

/-- The declared ranges of the four drifting sensor fields. -/
def Sensor.inRange (s : Sensor) : Prop :=
  (0.5 ≤ s.tide_level ∧ s.tide_level ≤ 4.0) ∧
  (0.2 ≤ s.wave_height ∧ s.wave_height ≤ 3.0) ∧
  (5 ≤ s.wind_speed ∧ s.wind_speed ≤ 50) ∧
  (20 ≤ s.water_temperature ∧ s.water_temperature ≤ 35)

/-- Every sensor of a collection is within the declared ranges. -/
def sensorsInRange (l : List Sensor) : Prop := ∀ s ∈ l, s.inRange

/-! ## createAlert -/

/-- The five inputs of the alert form as `document.getElementById` finds
them: the `value` of each element, or `none` for an element that is missing. -/
structure AlertForm where
  alertType : Option String
  alertRegion : Option String
  alertSeverity : Option String
  alertImpact : Option String
  alertActions : Option String
  deriving DecidableEq, Repr

/-- Splitting a sequence of characters at every newline, as
`String.prototype.split` does for the separator `'\n'`. -/
def splitChars : List Char → List (List Char)
  | [] => [[]]
  | c :: cs =>
    if c = '\n' then [] :: splitChars cs
    else
      match splitChars cs with
      | [] => [[c]]
      | l :: ls => (c :: l) :: ls

/-- The expression `text.split('\n')`. -/
def split (text : String) : List String := (splitChars text.data).map String.mk

/-- A call of `this.showNotification(message, type)`. -/
structure Notification where
  message : String
  type : String
  deriving DecidableEq, Repr

/-- What a call of createAlert leaves behind: the data, the position of the
random stream and the notification shown. -/
structure CreateAlertResult where
  data : MockData
  pos : Nat
  notification : Notification
  deriving Repr

/-- The method `createAlert`, called at time `now` with the random stream at
position `pos`.  The re-rendering calls (`hideAlertForm`, `updateAlertsTab`,
`updateDashboard`) read the data and write the DOM only. -/
def createAlert (now : Int) (rand : Nat → ℚ) (pos : Nat) (form : AlertForm) (d : MockData) :
    CreateAlertResult :=
  match form.alertType, form.alertRegion, form.alertSeverity, form.alertImpact,
    form.alertActions with
  | some alertType, some alertRegion, some alertSeverity, some alertImpact, some alertActions =>
    let newAlert : Alert :=
      { id := "ALERT_" ++ toString now
        type := alertType
        region := alertRegion
        severity := alertSeverity
        expected_impact := alertImpact
        recommended_actions := split alertActions
        issued_at := now
        estimated_affected := ⌊rand pos * 50000⌋ + 1000
        status := "Active" }
    { data := { d with alerts := newAlert :: d.alerts }
      pos := pos + 1
      notification := { message := "Alert created successfully!", type := "success" } }
  | _, _, _, _, _ =>
    { data := d, pos := pos
      notification := { message := "Missing form elements!", type := "error" } }

/-- A submission to createAlert: the time of the call and the form. -/
structure Submission where
  now : Int
  form : AlertForm
  deriving DecidableEq, Repr

/-- The state after a sequence of createAlert calls, the first element of the
list being the first call. -/
def createAlerts (rand : Nat → ℚ) : Nat → MockData → List Submission → MockData
  | _, d, [] => d
  | pos, d, sub :: rest =>
    let r := createAlert sub.now rand pos sub.form d
    createAlerts rand r.pos r.data rest

/-- The value of a decimal digit character. -/
def digitValue (c : Char) : Nat := c.toNat - 48

/-- The number that a sequence of decimal digits writes. -/
def decimalValue (l : List Char) : Nat := l.foldl (fun acc c => acc * 10 + digitValue c) 0

/-- Reading back the decimal rendering of an integer. -/
def decodeInt : List Char → Int
  | '-' :: rest => - (decimalValue rest : Int)
  | l => (decimalValue l : Int)

/-- A submission form with all five fields populated, used in the examples. -/
def exampleForm : AlertForm :=
  { alertType := some "High Tide Warning", alertRegion := some "Goa Beaches",
    alertSeverity := some "HIGH", alertImpact := some "Flooding of the promenade",
    alertActions := some "Close the beach\nWarn the fishermen" }

/-! ## filterAlerts -/

/-- The DOM as filterAlerts reads it: the `value` of `#severityFilter`
(`none` when the element is missing) and whether `#alertsTableBody` exists. -/
structure FilterDom where
  severityFilter : Option String
  alertsTableBody : Bool
  deriving DecidableEq, Repr

/-- What a call of filterAlerts leaves behind: the data, and the alerts whose
rows it wrote into the table body, in row order (`none` when the method
returned before rendering). -/
structure FilterResult where
  data : MockData
  rendered : Option (List Alert)
  deriving DecidableEq, Repr

/-- The method `filterAlerts`; `filteredAlerts` is the array that the
template maps to table rows. -/
def filterAlerts (dom : FilterDom) (d : MockData) : FilterResult :=
  match dom.severityFilter with
  | none => { data := d, rendered := none }
  | some value =>
    if dom.alertsTableBody = false then { data := d, rendered := none }
    else
      let filteredAlerts :=
        if value ≠ "" then d.alerts.filter (fun alert => decide (alert.severity = value))
        else d.alerts
      { data := d, rendered := some filteredAlerts }

/-! ## Preferences -/

/-- The JavaScript values that the preference code handles: the values that
`JSON.parse` can return and the number `NaN`, which `parseInt` returns for a
text without digits and `JSON.parse` never returns. -/
inductive Json where
  | null : Json
  | bool (b : Bool) : Json
  | num (q : ℚ) : Json
  | nan : Json
  | str (s : String) : Json
  | arr (items : List Json) : Json
  | obj (fields : List (String × Json)) : Json

/-- A JavaScript object: its own properties in insertion order. -/
abbrev JsObject := List (String × Json)

/-- Reading the property `key` of an object: `none` is `undefined`. -/
def getProp : JsObject → String → Option Json
  | [], _ => none
  | (k, v) :: rest, key => if k = key then some v else getProp rest key

/-- Defining the property `key` of an object: an existing property keeps its
place and takes the new value, a new one is added at the end. -/
def setProp : JsObject → String → Json → JsObject
  | [], key, value => [(key, value)]
  | (k, v) :: rest, key, value =>
    if k = key then (k, value) :: rest else (k, v) :: setProp rest key value

/-- The own enumerable properties that the spread `...value` copies. -/
def ownEntries : Json → JsObject
  | .obj fields => fields
  | .arr items => items.enum.map (fun p => (toString p.1, p.2))
  | .str s => s.data.enum.map (fun p => (toString p.1, Json.str (String.singleton p.2)))
  | _ => []

/-- The object literal `{ ...target, ...source }`, given the properties of
`target`. -/
def spread (target : JsObject) (source : Json) : JsObject :=
  (ownEntries source).foldl (fun acc p => setProp acc p.1 p.2) target

/-- The keys of an object are pairwise distinct. -/
def distinctKeys (o : JsObject) : Prop := (o.map Prod.fst).Nodup

/-- The local constant `defaultPreferences` of getUserPreferences. -/
def defaultPreferences : JsObject :=
  [ ("notifications",
      Json.obj [("email", Json.bool true), ("sms", Json.bool true), ("push", Json.bool true)]),
    ("minSeverity", Json.str "MEDIUM"),
    ("theme", Json.str "auto"),
    ("refreshInterval", Json.num 10),
    ("apiEndpoint", Json.str "https://api.coastalguard.com/v1"),
    ("backupFrequency", Json.str "daily"),
    ("apiKey", Json.str "") ]

/-- The key under which the preferences are stored. -/
def preferencesKey : String := "coastalAlertPreferences"

/-- The host object `localStorage`: its entries, whether every access raises
(storage denied to the page), and whether a write raises (quota exceeded). -/
structure LocalStorage where
  items : List (String × String)
  accessDenied : Bool
  quotaExceeded : Bool
  deriving DecidableEq, Repr

/-- The stored value of a key, `none` when there is none. -/
def lookupItem : List (String × String) → String → Option String
  | [], _ => none
  | (k, v) :: rest, key => if k = key then some v else lookupItem rest key

/-- Replacing or adding the value of a key. -/
def storeItem : List (String × String) → String → String → List (String × String)
  | [], key, value => [(key, value)]
  | (k, v) :: rest, key, value =>
    if k = key then (k, value) :: rest else (k, v) :: storeItem rest key value

/-- The call `localStorage.getItem(key)`: an exception, or the stored value
(`none` is `null`). -/
def LocalStorage.getItem (ls : LocalStorage) (key : String) : Except String (Option String) :=
  if ls.accessDenied then .error "SecurityError" else .ok (lookupItem ls.items key)

/-- The call `localStorage.setItem(key, value)`: an exception that leaves the
storage as it was, or the storage with the value written. -/
def LocalStorage.setItem (ls : LocalStorage) (key value : String) : Except String LocalStorage :=
  if ls.accessDenied then .error "SecurityError"
  else if ls.quotaExceeded then .error "QuotaExceededError"
  else .ok { ls with items := storeItem ls.items key value }

/-- The method `getUserPreferences`.  The host function `JSON.parse` is the
parameter `parse`, which answers `none` where `JSON.parse` raises. -/
def getUserPreferences (parse : String → Option Json) (ls : LocalStorage) : JsObject :=
  match ls.getItem preferencesKey with
  | .error _ => defaultPreferences
  | .ok none => defaultPreferences
  | .ok (some stored) =>
    if stored = "" then defaultPreferences
    else
      match parse stored with
      | none => defaultPreferences
      | some value => spread defaultPreferences value

/-- What a call of saveUserPreferences leaves behind: the storage, and the
arguments of `console.warn` when the write raised. -/
structure SaveResult where
  storage : LocalStorage
  warning : Option (String × String)
  deriving DecidableEq, Repr

/-- The method `saveUserPreferences`.  The host function `JSON.stringify` is
the parameter `stringify`. -/
def saveUserPreferences (stringify : Json → String) (preferences : Json) (ls : LocalStorage) :
    SaveResult :=
  match ls.setItem preferencesKey (stringify preferences) with
  | .ok ls' => { storage := ls', warning := none }
  | .error e => { storage := ls, warning := some ("Unable to save preferences:", e) }

/-- The expression `preferences.notifications.<toggle>` that updateSettings
reads, for a `notifications` value that is an object: `none` is `undefined`. -/
def notificationToggle (preferences : JsObject) (toggle : String) : Option Json :=
  match getProp preferences "notifications" with
  | some (Json.obj fields) => getProp fields toggle
  | _ => none

/-- The JSON text of the default record. -/
def defaultPreferencesText : String :=
  "\x7b\"notifications\":\x7b\"email\":true,\"sms\":true,\"push\":true\x7d," ++
  "\"minSeverity\":\"MEDIUM\",\"theme\":\"auto\",\"refreshInterval\":10," ++
  "\"apiEndpoint\":\"https://api.coastalguard.com/v1\",\"backupFrequency\":\"daily\"," ++
  "\"apiKey\":\"\"\x7d"

/-- A JSON text whose notifications object holds the email toggle only. -/
def emailOnlyText : String := "\x7b\"notifications\":\x7b\"email\":false\x7d\x7d"

/-- The values of `JSON.parse` on the texts used in the examples; on every
other text the answer `none` stands for a text that does not parse. -/
def parseExamples (text : String) : Option Json :=
  if text = defaultPreferencesText then some (Json.obj defaultPreferences)
  else if text = emailOnlyText then
    some (Json.obj [("notifications", Json.obj [("email", Json.bool false)])])
  else if text = "\x7b\"theme\":\"dark\"\x7d" then some (Json.obj [("theme", Json.str "dark")])
  else none

/-- The declared ranges of the four drifting weather fields. -/
def Weather.inRange (w : Weather) : Prop :=
  (20 ≤ w.temperature ∧ w.temperature ≤ 40) ∧
  (40 ≤ w.humidity ∧ w.humidity ≤ 95) ∧
  (995 ≤ w.pressure ∧ w.pressure ≤ 1025) ∧
  (5 ≤ w.wind_speed ∧ w.wind_speed ≤ 50)

/-- Every weather record of a collection is within the declared ranges. -/
def weatherInRange (l : List Weather) : Prop := ∀ w ∈ l, w.inRange

/-- The position of the random stream at the draw `Math.random() < 0.05` of a
call of simulateDataUpdates that starts at position `pos`: both loops have
drawn four numbers per element. -/
def branchPos (pos : Nat) (d : MockData) : Nat :=
  pos + 4 * d.sensors.length + 4 * d.weather.length

/-- The fixture of the specification's example: the single region
`region_001` at threat level 'low', no sensor, no weather record, no alert. -/
def fixtureData : MockData :=
  { coastalRegions :=
      [ { id := "region_001", name := "", latitude := 0, longitude := 0,
          threat_level := some "low", current_threats := [], population_at_risk := 0,
          last_updated := 0 } ]
    sensors := [], weather := [], alerts := [], threatTypes := [] }

/-! ## Scheduler (startDataUpdates, restartDataUpdates) -/

/-- An interval timer that the host fires: the handle that `setInterval`
returned for it and its delay in milliseconds. -/
structure Timer where
  handle : Nat
  delay : Int
  deriving DecidableEq, Repr

/-- The timer state: the interval timers that are live, the handle that the
next `setInterval` returns (handles are positive and never reused), and the
fields `this.dataUpdateTimer` (`none` is `null`) and `this.refreshInterval`. -/
structure Scheduler where
  live : List Timer
  nextHandle : Nat
  dataUpdateTimer : Option Nat
  refreshInterval : Int
  deriving DecidableEq, Repr

/-- The host call `clearInterval(handle)`. -/
def clearInterval (handle : Nat) (s : Scheduler) : Scheduler :=
  { s with live := s.live.filter (fun t => decide (t.handle ≠ handle)) }

/-- The method `startDataUpdates`: `setInterval` creates a timer with the
current refresh interval and its handle is stored. -/
def startDataUpdates (s : Scheduler) : Scheduler :=
  { s with
    live := s.live ++ [{ handle := s.nextHandle, delay := s.refreshInterval }]
    nextHandle := s.nextHandle + 1
    dataUpdateTimer := some s.nextHandle }

/-- The method `restartDataUpdates`; the test `if (this.dataUpdateTimer)` holds
for a handle other than zero. -/
def restartDataUpdates (s : Scheduler) : Scheduler :=
  match s.dataUpdateTimer with
  | some handle =>
    if handle ≠ 0 then startDataUpdates (clearInterval handle s) else startDataUpdates s
  | none => startDataUpdates s

/-- The scheduler after the constructor and `init`: no timer is live when the
constructor runs, `loadUserPreferences` sets the refresh interval from the
stored number of seconds, and `startDataUpdates` creates the first timer with
the handle `firstHandle`. -/
def initScheduler (firstHandle : Nat) (seconds : Int) : Scheduler :=
  startDataUpdates
    { live := [], nextHandle := firstHandle, dataUpdateTimer := none,
      refreshInterval := seconds * 1000 }

/-- The three callers of restartDataUpdates, with the number that each reads:
`preferences.refreshInterval` for saveSettings and `parseInt(e.target.value)`
for handleRefreshIntervalChange. -/
inductive SettingsEvent where
  | saveSettings (seconds : Int) : SettingsEvent
  | resetSettings : SettingsEvent
  | handleRefreshIntervalChange (seconds : Int) : SettingsEvent
  deriving DecidableEq, Repr

/-- The value that the caller assigns to `this.refreshInterval`. -/
def SettingsEvent.interval : SettingsEvent → Int
  | .saveSettings seconds => seconds * 1000
  | .resetSettings => 10000
  | .handleRefreshIntervalChange seconds => seconds * 1000

/-- The effect of a caller on the scheduler: it assigns the refresh interval
and calls restartDataUpdates. -/
def SettingsEvent.apply (e : SettingsEvent) (s : Scheduler) : Scheduler :=
  restartDataUpdates { s with refreshInterval := e.interval }

/-- The scheduler after a sequence of settings events. -/
def runEvents (s : Scheduler) (events : List SettingsEvent) : Scheduler :=
  events.foldl (fun acc e => e.apply acc) s

/-- The state of a scheduler between calls: one live timer, whose handle is
stored in `dataUpdateTimer` and whose delay is the refresh interval. -/
def Scheduler.oneTimer (s : Scheduler) : Prop :=
  ∃ handle : Nat, 0 < handle ∧ handle < s.nextHandle ∧
    s.live = [{ handle := handle, delay := s.refreshInterval }] ∧
    s.dataUpdateTimer = some handle

/-! ## Lookups (showRegionDetails, viewAlertDetails) -/

/-- The expression `this.mockData.coastalRegions.find(r => r.id === regionId)`:
`none` is `undefined`. -/
def findRegion (regions : List Region) (regionId : String) : Option Region :=
  regions.find? (fun r => decide (r.id = regionId))

/-- The expression `this.mockData.alerts.find(a => a.id === alertId)`. -/
def findAlert (alerts : List Alert) (alertId : String) : Option Alert :=
  alerts.find? (fun a => decide (a.id = alertId))

/-- The modal as the two methods see it: the text of `#modalTitle`, the markup
of `#modalBody` and whether `#regionModal` carries the class `hidden`; `none`
for an element that is missing. -/
structure ModalDom where
  modalTitle : Option String
  modalBody : Option String
  modalHidden : Option Bool
  deriving DecidableEq, Repr

/-- What a call of showRegionDetails or viewAlertDetails leaves behind. -/
structure DetailsResult where
  data : MockData
  dom : ModalDom
  error : Option String
  deriving DecidableEq, Repr

/-- The method `showRegionDetails`.  The template literal of the modal body is
the parameter `template`; evaluating it calls `toUpperCase` on the threat
level, which raises a TypeError for a threat level that is `undefined`, after
the title has been written. -/
def showRegionDetails (template : Region → String) (regionId : String) (d : MockData)
    (dom : ModalDom) : DetailsResult :=
  match findRegion d.coastalRegions regionId with
  | none => { data := d, dom := dom, error := none }
  | some region =>
    let dom1 : ModalDom := { dom with modalTitle := dom.modalTitle.map (fun _ => region.name) }
    match dom1.modalBody, region.threat_level with
    | some _, none => { data := d, dom := dom1, error := some "TypeError" }
    | _, _ =>
      { data := d
        dom := { dom1 with
          modalBody := dom1.modalBody.map (fun _ => template region)
          modalHidden := dom1.modalHidden.map (fun _ => false) }
        error := none }

/-- The method `viewAlertDetails`; the template literal of the modal body is
the parameter `template`. -/
def viewAlertDetails (template : Alert → String) (alertId : String) (d : MockData)
    (dom : ModalDom) : DetailsResult :=
  match findAlert d.alerts alertId with
  | none => { data := d, dom := dom, error := none }
  | some alert =>
    { data := d
      dom :=
        { modalTitle := dom.modalTitle.map (fun _ => "Alert: " ++ alert.type)
          modalBody := dom.modalBody.map (fun _ => template alert)
          modalHidden := dom.modalHidden.map (fun _ => false) }
      error := none }

/-! ## The operations of the core on one state -/

/-- The host functions that the operations call. -/
structure Host where
  rand : Nat → ℚ
  parse : String → Option Json
  stringify : Json → String
  regionTemplate : Region → String
  alertTemplate : Alert → String

/-- The state that the operations of the core read and write. -/
structure CoreState where
  data : MockData
  pos : Nat
  storage : LocalStorage
  modal : ModalDom
  deriving Repr

/-- A call of an operation of the core, with its arguments and the time of the
call where the operation reads the clock. -/
inductive CoreOp where
  | createAlert (now : Int) (form : AlertForm) : CoreOp
  | filterAlerts (dom : FilterDom) : CoreOp
  | simulateDataUpdates (now : Int) : CoreOp
  | refreshData (now : Int) : CoreOp
  | showRegionDetails (regionId : String) : CoreOp
  | viewAlertDetails (alertId : String) : CoreOp
  | getUserPreferences : CoreOp
  | saveUserPreferences (preferences : Json) : CoreOp

/-- The state after one operation.  `refreshData` calls simulateDataUpdates
and then re-renders, which reads the data only. -/
def applyOp (host : Host) (st : CoreState) : CoreOp → CoreState
  | .createAlert now form =>
    let r := createAlert now host.rand st.pos form st.data
    { st with data := r.data, pos := r.pos }
  | .filterAlerts dom => { st with data := (filterAlerts dom st.data).data }
  | .simulateDataUpdates now =>
    let r := simulateDataUpdates now host.rand st.pos st.data
    { st with data := r.data, pos := r.pos }
  | .refreshData now =>
    let r := simulateDataUpdates now host.rand st.pos st.data
    { st with data := r.data, pos := r.pos }
  | .showRegionDetails regionId =>
    let r := showRegionDetails host.regionTemplate regionId st.data st.modal
    { st with data := r.data, modal := r.dom }
  | .viewAlertDetails alertId =>
    let r := viewAlertDetails host.alertTemplate alertId st.data st.modal
    { st with data := r.data, modal := r.dom }
  | .getUserPreferences => st
  | .saveUserPreferences preferences =>
    { st with storage := (saveUserPreferences host.stringify preferences st.storage).storage }

/-- The state after a sequence of operations, the first of the list first. -/
def runOps (host : Host) (st : CoreState) (ops : List CoreOp) : CoreState :=
  ops.foldl (applyOp host) st

/-! ## fetchWithApiKey -/

/-- The truth value that a condition such as `if (value)` gives to a value
that may be `undefined` (`none`). -/
def truthy : Option Json → Bool
  | none => false
  | some Json.null => false
  | some (Json.bool b) => b
  | some (Json.num q) => decide (q ≠ 0)
  | some Json.nan => false
  | some (Json.str s) => decide (s ≠ "")
  | some (Json.arr _) => true
  | some (Json.obj _) => true

/-- The `options` argument of a request: its `headers` property, a plain
object of header names and values or `none` when the property is absent, and
its other properties. -/
structure RequestOptions where
  headers : Option JsObject
  others : JsObject

/-- The arguments of the call `fetch(url, options)`. -/
structure FetchCall where
  url : String
  options : RequestOptions

/-- The method `fetchWithApiKey`, up to the call of `fetch` that it returns:
`none` for `options` is a call without the argument, which takes the default
`{}`. -/
def fetchWithApiKey (parse : String → Option Json) (ls : LocalStorage) (url : String)
    (options : Option RequestOptions) : FetchCall :=
  let preferences := getUserPreferences parse ls
  let options := options.getD { headers := none, others := [] }
  let headers := options.headers.getD []
  let headers :=
    if truthy (getProp preferences "apiKey") = true then
      match getProp preferences "apiKey" with
      | some apiKey => setProp headers "Authorization" apiKey
      | none => headers
    else headers
  { url := url, options := { options with headers := some headers } }

/-- The headers that the caller supplied. -/
def suppliedHeaders (options : Option RequestOptions) : JsObject :=
  match options with
  | some o => o.headers.getD []
  | none => []

/-! ## formatTime -/

/-- The method `formatTime` for a timestamp that denotes the instant
`timestamp`, called at time `now`.  The rendering of the last branch,
`toLocaleDateString() + ' ' + toLocaleTimeString(...)`, is the parameter
`locale`. -/
def formatTime (locale : Int → String) (now timestamp : Int) : String :=
  let diff : Int := now - timestamp
  if diff < 60000 then "Just now"
  else if diff < 3600000 then
    let minutes : Int := ⌊(diff : ℚ) / 60000⌋
    toString minutes ++ "m ago"
  else if diff < 86400000 then
    let hours : Int := ⌊(diff : ℚ) / 3600000⌋
    toString hours ++ "h ago"
  else locale timestamp

/-! ## What JSON.stringify writes -/

mutual
/-- The value that `JSON.parse` reads back from the text that
`JSON.stringify` writes for a value: `NaN` is written as `null`, inside arrays
and objects too, and every other value is written as it is. -/
def Json.jsonImage : Json → Json
  | Json.nan => Json.null
  | Json.arr items => Json.arr (imageItems items)
  | Json.obj fields => Json.obj (imageFields fields)
  | Json.null => Json.null
  | Json.bool b => Json.bool b
  | Json.num q => Json.num q
  | Json.str s => Json.str s
/-- The images of the elements of an array. -/
def imageItems : List Json → List Json
  | [] => []
  | x :: xs => x.jsonImage :: imageItems xs
/-- The images of the properties of an object. -/
def imageFields : List (String × Json) → List (String × Json)
  | [] => []
  | (k, v) :: rest => (k, v.jsonImage) :: imageFields rest
end

mutual
/-- No number of the value is `NaN`. -/
def Json.noNaN : Json → Bool
  | Json.nan => false
  | Json.arr items => itemsNoNaN items
  | Json.obj fields => fieldsNoNaN fields
  | Json.null => true
  | Json.bool _ => true
  | Json.num _ => true
  | Json.str _ => true
/-- No number of the elements is `NaN`. -/
def itemsNoNaN : List Json → Bool
  | [] => true
  | x :: xs => x.noNaN && itemsNoNaN xs
/-- No number of the properties is `NaN`. -/
def fieldsNoNaN : List (String × Json) → Bool
  | [] => true
  | (_, v) :: rest => v.noNaN && fieldsNoNaN rest
end

/-! ## saveSettings: the record that is saved -/

/-- The settings form as saveSettings reads it: the `checked` or `value` of
each element, `none` for an element that is missing.  For the refresh interval
the value is the result of `parseInt(refreshInterval.value)`: a whole number,
or `none` for `NaN`, which `parseInt` returns for a text without digits such
as the empty text. -/
structure SettingsForm where
  emailNotifications : Option Bool
  smsNotifications : Option Bool
  pushNotifications : Option Bool
  minSeverity : Option String
  themeSelect : Option String
  refreshInterval : Option (Option Int)
  apiEndpoint : Option String
  backupFreq : Option String
  apiKeyInput : Option String
  deriving DecidableEq, Repr

/-- The object `preferences` that saveSettings builds and hands to
saveUserPreferences. -/
def settingsRecord (form : SettingsForm) : JsObject :=
  [ ("notifications",
      Json.obj
        [ ("email", Json.bool (form.emailNotifications.getD true)),
          ("sms", Json.bool (form.smsNotifications.getD true)),
          ("push", Json.bool (form.pushNotifications.getD true)) ]),
    ("minSeverity", Json.str (form.minSeverity.getD "MEDIUM")),
    ("theme", Json.str (form.themeSelect.getD "auto")),
    ("refreshInterval",
      match form.refreshInterval with
      | some (some n) => Json.num n
      | some none => Json.nan
      | none => Json.num 10),
    ("apiEndpoint", Json.str (form.apiEndpoint.getD "https://api.coastalguard.com/v1")),
    ("backupFrequency", Json.str (form.backupFreq.getD "daily")),
    ("apiKey", Json.str (form.apiKeyInput.getD "")) ]

/-- The settings form with every element present, the default choices and an
empty refresh-interval field. -/
def emptyIntervalForm : SettingsForm :=
  { emailNotifications := some true, smsNotifications := some true,
    pushNotifications := some true, minSeverity := some "MEDIUM", themeSelect := some "auto",
    refreshInterval := some none, apiEndpoint := some "https://api.coastalguard.com/v1",
    backupFreq := some "daily", apiKeyInput := some "" }

/-- The text that `JSON.stringify` writes for the record of
`emptyIntervalForm`: the refresh interval `NaN` is written as `null`. -/
def emptyIntervalText : String :=
  "\x7b\"notifications\":\x7b\"email\":true,\"sms\":true,\"push\":true\x7d," ++
  "\"minSeverity\":\"MEDIUM\",\"theme\":\"auto\",\"refreshInterval\":null," ++
  "\"apiEndpoint\":\"https://api.coastalguard.com/v1\",\"backupFrequency\":\"daily\"," ++
  "\"apiKey\":\"\"\x7d"

/-- The value of `JSON.parse` on `emptyIntervalText`; on every other text the
answer `none` stands for a text that does not parse. -/
def parseEmptyInterval (text : String) : Option Json :=
  if text = emptyIntervalText then
    some (Json.obj
      [ ("notifications",
          Json.obj [("email", Json.bool true), ("sms", Json.bool true), ("push", Json.bool true)]),
        ("minSeverity", Json.str "MEDIUM"),
        ("theme", Json.str "auto"),
        ("refreshInterval", Json.null),
        ("apiEndpoint", Json.str "https://api.coastalguard.com/v1"),
        ("backupFrequency", Json.str "daily"),
        ("apiKey", Json.str "") ])
  else none

/-! ## Lemmas -/

theorem clamp_bounds (lo hi x : ℚ) (h : lo ≤ hi) : lo ≤ clamp lo hi x ∧ clamp lo hi x ≤ hi := by
  unfold clamp
  exact ⟨le_max_left _ _, max_le h (min_le_left _ _)⟩

theorem updateSensor_inRange (now : Int) (r1 r2 r3 r4 : ℚ) (s : Sensor) :
    (updateSensor now r1 r2 r3 r4 s).inRange := by
  unfold Sensor.inRange updateSensor
  exact ⟨clamp_bounds _ _ _ (by norm_num), clamp_bounds _ _ _ (by norm_num),
    clamp_bounds _ _ _ (by norm_num), clamp_bounds _ _ _ (by norm_num)⟩

theorem updateSensors_inRange (now : Int) (rand : Nat → ℚ) (l : List Sensor) :
    ∀ pos, sensorsInRange (updateSensors now rand pos l).1 := by
  induction l with
  | nil => intro pos s hs; simp [updateSensors] at hs
  | cons a rest ih =>
    intro pos s hs
    simp only [updateSensors, List.mem_cons] at hs
    rcases hs with h | h
    · rw [h]; exact updateSensor_inRange _ _ _ _ _ _
    · exact ih _ s h

theorem simulateDataUpdates_sensors (now : Int) (rand : Nat → ℚ) (pos : Nat) (d : MockData) :
    (simulateDataUpdates now rand pos d).data.sensors = (updateSensors now rand pos d.sensors).1 := by
  unfold simulateDataUpdates
  dsimp only
  split_ifs with h
  · split <;> rfl
  · rfl

theorem seedSensors_inRange (now : Int) : sensorsInRange (seedSensors now) := by
  intro s hs
  simp only [seedSensors, List.mem_cons, List.mem_singleton, List.not_mem_nil, or_false] at hs
  rcases hs with h | h | h <;> subst h <;> unfold Sensor.inRange <;> norm_num

/-! ### Decimal rendering of the time in an identifier -/

theorem digitChar_spec (k : Nat) (h : k < 10) :
    digitValue (Nat.digitChar k) = k ∧ Nat.digitChar k ≠ '-' := by
  interval_cases k <;> decide

theorem toDigitsCore_spec : ∀ (fuel n : Nat) (ds : List Char), n < fuel →
    ∃ xs : List Char, Nat.toDigitsCore 10 fuel n ds = xs ++ ds ∧ decimalValue xs = n ∧
      xs ≠ [] ∧ ∀ c ∈ xs, c ≠ '-' := by
  intro fuel
  induction fuel with
  | zero => intro n ds h; omega
  | succ fuel ih =>
    intro n ds h
    have hd := digitChar_spec (n % 10) (Nat.mod_lt _ (by norm_num))
    simp only [Nat.toDigitsCore]
    split_ifs with h0
    · refine ⟨[Nat.digitChar (n % 10)], rfl, ?_, by simp, ?_⟩
      · simp only [decimalValue, List.foldl_cons, List.foldl_nil, hd.1]
        omega
      · intro c hc
        rw [List.mem_singleton] at hc
        rw [hc]; exact hd.2
    · obtain ⟨xs, hxs, hval, _, hdig⟩ := ih (n / 10) (Nat.digitChar (n % 10) :: ds) (by omega)
      refine ⟨xs ++ [Nat.digitChar (n % 10)], by simp [hxs], ?_, by simp, ?_⟩
      · unfold decimalValue at hval ⊢
        rw [List.foldl_append, hval]
        simp only [List.foldl_cons, List.foldl_nil, hd.1]
        omega
      · intro c hc
        rcases List.mem_append.mp hc with h1 | h1
        · exact hdig c h1
        · rw [List.mem_singleton] at h1
          rw [h1]; exact hd.2

theorem decodeInt_of_ne (c : Char) (rest : List Char) (h : c ≠ '-') :
    decodeInt (c :: rest) = (decimalValue (c :: rest) : Int) := by
  unfold decodeInt
  split
  · rename_i heq
    simp at heq
    exact absurd heq.1 h
  · rfl

theorem decodeInt_toString (i : Int) : decodeInt (toString i).data = i := by
  cases i with
  | ofNat m =>
    obtain ⟨xs, hxs, hval, hne, hdig⟩ := toDigitsCore_spec (m + 1) m [] (by omega)
    have hdata : (toString (Int.ofNat m)).data = xs := by
      rw [← List.append_nil xs, ← hxs]; rfl
    rw [hdata]
    cases xs with
    | nil => exact absurd rfl hne
    | cons c rest =>
      rw [decodeInt_of_ne c rest (hdig c (List.mem_cons_self _ _)), hval]
      rfl
  | negSucc m =>
    obtain ⟨xs, hxs, hval, hne, hdig⟩ := toDigitsCore_spec (m + 1 + 1) (m + 1) [] (by omega)
    have hdata : (toString (Int.negSucc m)).data = '-' :: xs := by
      rw [← List.append_nil xs, ← hxs]; rfl
    rw [hdata]
    show - (decimalValue xs : Int) = _
    rw [hval]
    rfl

theorem alertId_injective (a b : Int) (h : "ALERT_" ++ toString a = "ALERT_" ++ toString b) :
    a = b := by
  have h1 := congrArg String.data h
  simp only [String.data_append] at h1
  have h2 := List.append_cancel_left h1
  rw [← decodeInt_toString a, ← decodeInt_toString b, h2]

theorem alertId_decode (t : Int) (s : String) (h : "ALERT_" ++ s = "ALERT_" ++ toString t) :
    t = decodeInt s.data := by
  have h1 := congrArg String.data h
  simp only [String.data_append] at h1
  have h2 := List.append_cancel_left h1
  rw [h2, decodeInt_toString]

theorem seedAlerts_id_ne (t0 : Int) (a : Alert) (ha : a ∈ seedAlerts t0) (t : Int) :
    a.id ≠ "ALERT_" ++ toString t := by
  simp only [seedAlerts, List.mem_cons, List.mem_singleton, List.not_mem_nil, or_false] at ha
  rcases ha with h | h | h <;> subst h <;> intro hid
  · have h1 : t = 1 := alertId_decode t "001" hid
    subst h1
    have h2 : "ALERT_001" = "ALERT_" ++ toString (1 : Int) := hid
    exact absurd h2 (by decide)
  · have h1 : t = 2 := alertId_decode t "002" hid
    subst h1
    have h2 : "ALERT_002" = "ALERT_" ++ toString (2 : Int) := hid
    exact absurd h2 (by decide)
  · have h1 : t = 3 := alertId_decode t "003" hid
    subst h1
    have h2 : "ALERT_003" = "ALERT_" ++ toString (3 : Int) := hid
    exact absurd h2 (by decide)

theorem createAlert_cases (now : Int) (rand : Nat → ℚ) (pos : Nat) (form : AlertForm)
    (d : MockData) :
    (createAlert now rand pos form d).data = d ∨
    ∃ a : Alert, a.id = "ALERT_" ++ toString now ∧
      (createAlert now rand pos form d).data.alerts = a :: d.alerts := by
  obtain ⟨t, r, s, i, a⟩ := form
  cases t <;> cases r <;> cases s <;> cases i <;> cases a <;>
    first
    | exact Or.inl rfl
    | exact Or.inr ⟨_, rfl, rfl⟩

theorem createAlerts_ids_nodup (rand : Nat → ℚ) :
    ∀ (subs : List Submission) (pos : Nat) (d : MockData) (used : List Int),
      (d.alerts.map Alert.id).Nodup →
      (∀ a ∈ d.alerts, (∀ t : Int, a.id ≠ "ALERT_" ++ toString t) ∨
        ∃ t ∈ used, a.id = "ALERT_" ++ toString t) →
      (∀ sub ∈ subs, sub.now ∉ used) →
      (subs.map Submission.now).Nodup →
      ((createAlerts rand pos d subs).alerts.map Alert.id).Nodup := by
  intro subs
  induction subs with
  | nil => intro pos d used hnd _ _ _; exact hnd
  | cons sub rest ih =>
    intro pos d used hnd hids hfresh htimes
    have hsub : sub.now ∉ rest.map Submission.now ∧ (rest.map Submission.now).Nodup := by
      simpa using htimes
    have hfresh' : ∀ s ∈ rest, s.now ∉ sub.now :: used := by
      intro s hs hmem
      rcases List.mem_cons.mp hmem with h | h
      · exact hsub.1 (h ▸ List.mem_map_of_mem Submission.now hs)
      · exact hfresh s (List.mem_cons_of_mem _ hs) h
    show ((createAlerts rand (createAlert sub.now rand pos sub.form d).pos
      (createAlert sub.now rand pos sub.form d).data rest).alerts.map Alert.id).Nodup
    rcases createAlert_cases sub.now rand pos sub.form d with hsame | ⟨a, haid, hal⟩
    · rw [hsame]
      refine ih _ d (sub.now :: used) hnd ?_ hfresh' hsub.2
      intro x hx
      rcases hids x hx with h | ⟨t, ht, hxt⟩
      · exact Or.inl h
      · exact Or.inr ⟨t, List.mem_cons_of_mem _ ht, hxt⟩
    · refine ih _ _ (sub.now :: used) ?_ ?_ hfresh' hsub.2
      · rw [hal, List.map_cons, List.nodup_cons]
        refine ⟨?_, hnd⟩
        intro hmem
        obtain ⟨x, hx, hxid⟩ := List.mem_map.mp hmem
        rcases hids x hx with h | ⟨t, ht, hxt⟩
        · exact h sub.now (hxid.trans haid)
        · have : t = sub.now := alertId_injective t sub.now (hxt.symm.trans (hxid.trans haid))
          exact hfresh sub (List.mem_cons_self _ _) (this ▸ ht)
      · intro x hx
        rw [hal] at hx
        rcases List.mem_cons.mp hx with h | h
        · exact Or.inr ⟨sub.now, List.mem_cons_self _ _, h ▸ haid⟩
        · rcases hids x h with h1 | ⟨t, ht, hxt⟩
          · exact Or.inl h1
          · exact Or.inr ⟨t, List.mem_cons_of_mem _ ht, hxt⟩

/-! ### Objects and storage -/

theorem getProp_setProp (o : JsObject) (k key : String) (v : Json) :
    getProp (setProp o k v) key = if k = key then some v else getProp o key := by
  induction o with
  | nil => simp [setProp, getProp]
  | cons p rest ih =>
    obtain ⟨k0, v0⟩ := p
    by_cases h0 : k0 = k
    · subst h0
      by_cases h1 : k0 = key <;> simp [setProp, getProp, h1]
    · by_cases h1 : k0 = key
      · subst h1
        have h2 : ¬ k = k0 := fun h => h0 h.symm
        simp [setProp, getProp, h0, h2]
      · simp [setProp, getProp, h0, h1, ih]

theorem getProp_eq_none (o : JsObject) (key : String) (h : key ∉ o.map Prod.fst) :
    getProp o key = none := by
  induction o with
  | nil => rfl
  | cons p rest ih =>
    obtain ⟨k0, v0⟩ := p
    simp only [List.map_cons, List.mem_cons, not_or] at h
    have h1 : ¬ k0 = key := fun e => h.1 e.symm
    simp [getProp, h1, ih h.2]

theorem getProp_spread_obj (fields : JsObject) (hkeys : distinctKeys fields) :
    ∀ (target : JsObject) (key : String),
      getProp (spread target (Json.obj fields)) key =
        match getProp fields key with
        | some v => some v
        | none => getProp target key := by
  unfold spread ownEntries
  induction fields with
  | nil => intro target key; simp [getProp]
  | cons p rest ih =>
    obtain ⟨k0, v0⟩ := p
    intro target key
    have hk : k0 ∉ rest.map Prod.fst ∧ distinctKeys rest := by
      simpa [distinctKeys] using hkeys
    rw [List.foldl_cons, ih hk.2, getProp_setProp]
    by_cases h1 : k0 = key
    · subst h1
      simp [getProp, getProp_eq_none rest k0 hk.1]
    · simp [getProp, h1]

theorem lookupItem_storeItem (items : List (String × String)) (key value : String) :
    lookupItem (storeItem items key value) key = some value := by
  induction items with
  | nil => simp [storeItem, lookupItem]
  | cons p rest ih =>
    obtain ⟨k0, v0⟩ := p
    by_cases h0 : k0 = key <;> simp [storeItem, lookupItem, h0, ih]

theorem parseExamples_empty : parseExamples "" = none := by
  simp [parseExamples, emailOnlyText, defaultPreferencesText]

theorem getUserPreferences_of_object (parse : String → Option Json) (ls : LocalStorage)
    (stored : String) (fields : JsObject)
    (haccess : ls.accessDenied = false)
    (hstored : lookupItem ls.items preferencesKey = some stored)
    (hempty : parse "" = none)
    (hparse : parse stored = some (Json.obj fields)) :
    getUserPreferences parse ls = spread defaultPreferences (Json.obj fields) := by
  have hne : stored ≠ "" := by
    intro h
    rw [h, hempty] at hparse
    exact Option.noConfusion hparse
  simp [getUserPreferences, LocalStorage.getItem, haccess, hstored, hne, hparse]

/-! ### Weather -/

theorem updateWeather_inRange (r1 r2 r3 r4 : ℚ) (w : Weather) :
    (updateWeather r1 r2 r3 r4 w).inRange := by
  unfold Weather.inRange updateWeather
  exact ⟨clamp_bounds _ _ _ (by norm_num), clamp_bounds _ _ _ (by norm_num),
    clamp_bounds _ _ _ (by norm_num), clamp_bounds _ _ _ (by norm_num)⟩

theorem updateWeathers_inRange (rand : Nat → ℚ) (l : List Weather) :
    ∀ pos, weatherInRange (updateWeathers rand pos l).1 := by
  induction l with
  | nil => intro pos w hw; simp [updateWeathers] at hw
  | cons a rest ih =>
    intro pos w hw
    simp only [updateWeathers, List.mem_cons] at hw
    rcases hw with h | h
    · rw [h]; exact updateWeather_inRange _ _ _ _ _
    · exact ih _ w h

theorem simulateDataUpdates_weather (now : Int) (rand : Nat → ℚ) (pos : Nat) (d : MockData) :
    (simulateDataUpdates now rand pos d).data.weather =
      (updateWeathers rand (updateSensors now rand pos d.sensors).2 d.weather).1 := by
  unfold simulateDataUpdates
  dsimp only
  split_ifs with h
  · split <;> rfl
  · rfl

theorem seedWeather_inRange : weatherInRange seedWeather := by
  intro w hw
  simp only [seedWeather, List.mem_cons, List.mem_singleton, List.not_mem_nil, or_false] at hw
  rcases hw with h | h | h <;> subst h <;> unfold Weather.inRange <;> norm_num

/-! ### Scheduler -/

theorem initScheduler_oneTimer (firstHandle : Nat) (h : 0 < firstHandle) (seconds : Int) :
    (initScheduler firstHandle seconds).oneTimer :=
  ⟨firstHandle, h, Nat.lt_succ_self _, rfl, rfl⟩

theorem apply_oneTimer (e : SettingsEvent) (s : Scheduler) (hs : s.oneTimer) :
    (e.apply s).oneTimer ∧
    (e.apply s).live = [{ handle := s.nextHandle, delay := e.interval }] ∧
    (e.apply s).refreshInterval = e.interval ∧
    (e.apply s).nextHandle = s.nextHandle + 1 := by
  obtain ⟨handle, hpos, hlt, hlive, htimer⟩ := hs
  have hne : handle ≠ 0 := Nat.pos_iff_ne_zero.mp hpos
  have hlive' : (e.apply s).live = [{ handle := s.nextHandle, delay := e.interval }] := by
    simp [SettingsEvent.apply, restartDataUpdates, htimer, hne, startDataUpdates, clearInterval,
      hlive]
  have hint : (e.apply s).refreshInterval = e.interval := by
    simp [SettingsEvent.apply, restartDataUpdates, htimer, hne, startDataUpdates, clearInterval]
  have hnext : (e.apply s).nextHandle = s.nextHandle + 1 := by
    simp [SettingsEvent.apply, restartDataUpdates, htimer, hne, startDataUpdates, clearInterval]
  have htim : (e.apply s).dataUpdateTimer = some s.nextHandle := by
    simp [SettingsEvent.apply, restartDataUpdates, htimer, hne, startDataUpdates, clearInterval]
  refine ⟨⟨s.nextHandle, by omega, by omega, ?_, htim⟩, hlive', hint, hnext⟩
  rw [hlive', hint]

theorem runEvents_oneTimer (events : List SettingsEvent) :
    ∀ s : Scheduler, s.oneTimer →
      (runEvents s events).oneTimer ∧ s.nextHandle ≤ (runEvents s events).nextHandle ∧
      (events ≠ [] → ∀ t ∈ (runEvents s events).live, s.nextHandle ≤ t.handle) := by
  induction events with
  | nil => intro s hs; exact ⟨hs, le_refl _, fun h => absurd rfl h⟩
  | cons e rest ih =>
    intro s hs
    obtain ⟨hone, hlive, _, hnext⟩ := apply_oneTimer e s hs
    obtain ⟨h1, h2, h3⟩ := ih (e.apply s) hone
    refine ⟨h1, ?_, fun _ t ht => ?_⟩
    · show s.nextHandle ≤ (runEvents (e.apply s) rest).nextHandle
      omega
    · have ht' : t ∈ (runEvents (e.apply s) rest).live := ht
      by_cases hr : rest = []
      · subst hr
        have : t ∈ (e.apply s).live := ht'
        rw [hlive, List.mem_singleton] at this
        rw [this]
      · have := h3 hr t ht'
        omega

theorem runEvents_append (s : Scheduler) (pre rest : List SettingsEvent) :
    runEvents s (pre ++ rest) = runEvents (runEvents s pre) rest := by
  unfold runEvents
  rw [List.foldl_append]

/-! ### Positions of the random stream and the threat-level branch -/

theorem updateSensors_pos (now : Int) (rand : Nat → ℚ) (l : List Sensor) :
    ∀ pos, (updateSensors now rand pos l).2 = pos + 4 * l.length := by
  induction l with
  | nil => intro pos; rfl
  | cons a rest ih =>
    intro pos
    simp only [updateSensors, ih, List.length_cons]
    omega

theorem updateWeathers_pos (rand : Nat → ℚ) (l : List Weather) :
    ∀ pos, (updateWeathers rand pos l).2 = pos + 4 * l.length := by
  induction l with
  | nil => intro pos; rfl
  | cons a rest ih =>
    intro pos
    simp only [updateWeathers, ih, List.length_cons]
    omega

theorem loops_pos (now : Int) (rand : Nat → ℚ) (pos : Nat) (d : MockData) :
    (updateWeathers rand (updateSensors now rand pos d.sensors).2 d.weather).2 =
      branchPos pos d := by
  rw [updateWeathers_pos, updateSensors_pos]
  rfl

theorem simulateDataUpdates_no_branch (now : Int) (rand : Nat → ℚ) (pos : Nat) (d : MockData)
    (h : ¬ rand (branchPos pos d) < 0.05) :
    (simulateDataUpdates now rand pos d).data.coastalRegions = d.coastalRegions ∧
    (simulateDataUpdates now rand pos d).error = none := by
  unfold simulateDataUpdates
  simp only [loops_pos, h, if_false]
  constructor <;> first | rfl | trivial

theorem simulateDataUpdates_branch (now : Int) (rand : Nat → ℚ) (pos : Nat) (d : MockData)
    (region : Region)
    (h : rand (branchPos pos d) < 0.05)
    (hr : jsIndex d.coastalRegions
      ⌊rand (branchPos pos d + 1) * (d.coastalRegions.length : ℚ)⌋ = some region) :
    (simulateDataUpdates now rand pos d).data.coastalRegions =
      d.coastalRegions.set
        (⌊rand (branchPos pos d + 1) * (d.coastalRegions.length : ℚ)⌋).toNat
        { region with
          threat_level := jsIndex levels ⌊rand (branchPos pos d + 2) * (levels.length : ℚ)⌋
          last_updated := now } ∧
    (simulateDataUpdates now rand pos d).error = none := by
  unfold simulateDataUpdates
  simp only [loops_pos, h, if_true, hr]
  constructor <;> first | rfl | trivial

theorem floor_index (r : ℚ) (n : Nat) (h0 : 0 ≤ r) (h1 : r < 1) (hn : 0 < n) :
    0 ≤ ⌊r * (n : ℚ)⌋ ∧ (⌊r * (n : ℚ)⌋).toNat < n := by
  have hnq : (0 : ℚ) < (n : ℚ) := by exact_mod_cast hn
  have hnonneg : 0 ≤ ⌊r * (n : ℚ)⌋ := Int.floor_nonneg.mpr (mul_nonneg h0 hnq.le)
  have hlt : ⌊r * (n : ℚ)⌋ < (n : Int) := by
    rw [Int.floor_lt]
    have : r * (n : ℚ) < 1 * (n : ℚ) := mul_lt_mul_of_pos_right h1 hnq
    simpa using this
  exact ⟨hnonneg, by omega⟩

/-! ### Splitting at newlines -/

theorem splitChars_ne_nil (l : List Char) : splitChars l ≠ [] := by
  cases l with
  | nil => simp [splitChars]
  | cons c cs =>
    unfold splitChars
    split_ifs
    · simp
    · split <;> simp

theorem splitChars_no_newline (l : List Char) : ∀ part ∈ splitChars l, '\n' ∉ part := by
  induction l with
  | nil => intro part hp; simp [splitChars] at hp; simp [hp]
  | cons c cs ih =>
    intro part hp
    unfold splitChars at hp
    split_ifs at hp with hc
    · rcases List.mem_cons.mp hp with h | h
      · simp [h]
      · exact ih part h
    · cases hs : splitChars cs with
      | nil => exact absurd hs (splitChars_ne_nil cs)
      | cons l0 ls =>
        rw [hs] at hp ih
        rcases List.mem_cons.mp hp with h | h
        · rw [h]
          intro hmem
          rcases List.mem_cons.mp hmem with h1 | h1
          · exact hc h1.symm
          · exact ih l0 (List.mem_cons_self _ _) h1
        · exact ih part (List.mem_cons_of_mem _ h)

theorem splitChars_length (l : List Char) : (splitChars l).length = l.count '\n' + 1 := by
  induction l with
  | nil => rfl
  | cons c cs ih =>
    unfold splitChars
    split_ifs with hc
    · subst hc
      simp [ih]
    · cases hs : splitChars cs with
      | nil => exact absurd hs (splitChars_ne_nil cs)
      | cons l0 ls =>
        rw [hs] at ih
        have hcount : (c :: cs).count '\n' = cs.count '\n' :=
          List.count_cons_of_ne (fun h => hc h.symm) cs
        rw [hcount, ← ih]
        rfl

theorem splitChars_join (l : List Char) :
    ∀ first rest, splitChars l = first :: rest →
      first ++ (rest.map (fun part => '\n' :: part)).flatten = l := by
  induction l with
  | nil =>
    intro first rest h
    simp only [splitChars, List.cons.injEq] at h
    obtain ⟨h1, h2⟩ := h
    subst h1; subst h2
    rfl
  | cons c cs ih =>
    intro first rest h
    unfold splitChars at h
    split_ifs at h with hc
    · simp only [List.cons.injEq] at h
      obtain ⟨h1, h2⟩ := h
      subst h1
      cases hs : splitChars cs with
      | nil => exact absurd hs (splitChars_ne_nil cs)
      | cons l0 ls =>
        rw [hs] at h2
        subst h2
        have := ih l0 ls hs
        simp only [List.map_cons, List.flatten_cons, List.nil_append, List.cons_append]
        rw [hc, this]
    · cases hs : splitChars cs with
      | nil => exact absurd hs (splitChars_ne_nil cs)
      | cons l0 ls =>
        rw [hs] at h
        simp only [List.cons.injEq] at h
        obtain ⟨h1, h2⟩ := h
        subst h1; subst h2
        have := ih l0 ls hs
        simp only [List.cons_append]
        rw [this]

theorem intercalate_go_data (sep : String) (parts : List String) :
    ∀ acc : String, (String.intercalate.go acc sep parts).data =
      acc.data ++ (parts.map (fun part => sep.data ++ part.data)).flatten := by
  induction parts with
  | nil => intro acc; simp [String.intercalate.go]
  | cons p rest ih =>
    intro acc
    simp only [String.intercalate.go, ih, String.data_append, List.map_cons, List.flatten_cons,
      List.append_assoc]

theorem createAlert_present (now : Int) (rand : Nat → ℚ) (pos : Nat) (d : MockData)
    (alertType alertRegion alertSeverity alertImpact alertActions : String) :
    (createAlert now rand pos
      { alertType := some alertType, alertRegion := some alertRegion,
        alertSeverity := some alertSeverity, alertImpact := some alertImpact,
        alertActions := some alertActions } d).data.alerts =
      { id := "ALERT_" ++ toString now, type := alertType, region := alertRegion,
        severity := alertSeverity, expected_impact := alertImpact,
        recommended_actions := split alertActions, issued_at := now,
        estimated_affected := ⌊rand pos * 50000⌋ + 1000, status := "Active" } :: d.alerts :=
  rfl

/-! ### Lookups and the alert collection under the operations -/

theorem find?_first {α : Type} (p : α → Bool) (l : List α) (h : ∃ x ∈ l, p x = true) :
    ∃ (pre : List α) (x : α) (post : List α),
      l = pre ++ x :: post ∧ p x = true ∧ (∀ y ∈ pre, p y = false) ∧ l.find? p = some x := by
  induction l with
  | nil =>
    obtain ⟨x, hx, _⟩ := h
    exact absurd hx (List.not_mem_nil x)
  | cons a rest ih =>
    by_cases ha : p a = true
    · exact ⟨[], a, rest, rfl, ha, fun y hy => absurd hy (List.not_mem_nil y), by
        simp [List.find?, ha]⟩
    · have hrest : ∃ x ∈ rest, p x = true := by
        obtain ⟨x, hx, hpx⟩ := h
        rcases List.mem_cons.mp hx with h1 | h1
        · exact absurd (h1 ▸ hpx) ha
        · exact ⟨x, h1, hpx⟩
      obtain ⟨pre, x, post, hl, hpx, hpre, hfind⟩ := ih hrest
      have ha' : p a = false := by simpa using ha
      refine ⟨a :: pre, x, post, by rw [hl]; rfl, hpx, ?_, by simp [List.find?, ha', hfind]⟩
      intro y hy
      rcases List.mem_cons.mp hy with h1 | h1
      · rw [h1]; exact ha'
      · exact hpre y h1

theorem simulateDataUpdates_alerts (now : Int) (rand : Nat → ℚ) (pos : Nat) (d : MockData) :
    (simulateDataUpdates now rand pos d).data.alerts = d.alerts := by
  unfold simulateDataUpdates
  dsimp only
  split_ifs with h
  · split <;> rfl
  · rfl

theorem showRegionDetails_data (template : Region → String) (regionId : String) (d : MockData)
    (dom : ModalDom) : (showRegionDetails template regionId d dom).data = d := by
  unfold showRegionDetails
  split
  · rfl
  · dsimp only
    split <;> rfl

theorem viewAlertDetails_data (template : Alert → String) (alertId : String) (d : MockData)
    (dom : ModalDom) : (viewAlertDetails template alertId d dom).data = d := by
  unfold viewAlertDetails
  split <;> rfl

theorem filterAlerts_data (dom : FilterDom) (d : MockData) : (filterAlerts dom d).data = d := by
  unfold filterAlerts
  split
  · rfl
  · split <;> rfl

theorem applyOp_alerts (host : Host) (st : CoreState) (op : CoreOp) :
    List.IsSuffix st.data.alerts (applyOp host st op).data.alerts := by
  cases op with
  | createAlert now form =>
    show List.IsSuffix st.data.alerts (createAlert now host.rand st.pos form st.data).data.alerts
    rcases createAlert_cases now host.rand st.pos form st.data with h | ⟨a, _, h⟩
    · rw [h]
    · rw [h]; exact List.suffix_cons a _
  | filterAlerts dom =>
    show List.IsSuffix st.data.alerts (filterAlerts dom st.data).data.alerts
    rw [filterAlerts_data]
  | simulateDataUpdates now =>
    show List.IsSuffix st.data.alerts
      (simulateDataUpdates now host.rand st.pos st.data).data.alerts
    rw [simulateDataUpdates_alerts]
  | refreshData now =>
    show List.IsSuffix st.data.alerts
      (simulateDataUpdates now host.rand st.pos st.data).data.alerts
    rw [simulateDataUpdates_alerts]
  | showRegionDetails regionId =>
    show List.IsSuffix st.data.alerts
      (showRegionDetails host.regionTemplate regionId st.data st.modal).data.alerts
    rw [showRegionDetails_data]
  | viewAlertDetails alertId =>
    show List.IsSuffix st.data.alerts
      (viewAlertDetails host.alertTemplate alertId st.data st.modal).data.alerts
    rw [viewAlertDetails_data]
  | getUserPreferences => exact List.suffix_refl _
  | saveUserPreferences preferences => exact List.suffix_refl _

theorem runOps_alerts (host : Host) (ops : List CoreOp) :
    ∀ st : CoreState, List.IsSuffix st.data.alerts (runOps host st ops).data.alerts := by
  induction ops with
  | nil => intro st; exact List.suffix_refl _
  | cons op rest ih =>
    intro st
    exact (applyOp_alerts host st op).trans (ih (applyOp host st op))

/-! ### One call of simulateDataUpdates, element by element -/

theorem updateSensors_frame (now : Int) (rand : Nat → ℚ) (l : List Sensor) :
    ∀ pos : Nat,
      (updateSensors now rand pos l).1.map
          (fun s => (s.station_id, s.location, s.salinity, s.ph_level)) =
        l.map (fun s => (s.station_id, s.location, s.salinity, s.ph_level)) ∧
      ∀ s ∈ (updateSensors now rand pos l).1, s.timestamp = now := by
  induction l with
  | nil => intro pos; simp [updateSensors]
  | cons a rest ih =>
    intro pos
    obtain ⟨h1, h2⟩ := ih (pos + 4)
    constructor
    · simp only [updateSensors, List.map_cons, h1]
      rfl
    · intro s hs
      simp only [updateSensors, List.mem_cons] at hs
      rcases hs with h | h
      · rw [h]; rfl
      · exact h2 s h

theorem updateWeathers_frame (rand : Nat → ℚ) (l : List Weather) :
    ∀ pos : Nat,
      (updateWeathers rand pos l).1.map
          (fun w => (w.region, w.wind_direction, w.visibility, w.conditions, w.forecast_48h)) =
        l.map
          (fun w => (w.region, w.wind_direction, w.visibility, w.conditions, w.forecast_48h)) := by
  induction l with
  | nil => intro pos; simp [updateWeathers]
  | cons a rest ih =>
    intro pos
    simp only [updateWeathers, List.map_cons, ih (pos + 4)]
    rfl

theorem map_set_same {α β : Type} (f : α → β) (l : List α) :
    ∀ (i : Nat) (x y : α), l.get? i = some y → f x = f y → (l.set i x).map f = l.map f := by
  induction l with
  | nil => intro i x y h; simp at h
  | cons a rest ih =>
    intro i x y h hf
    cases i with
    | zero =>
      simp only [List.get?_cons_zero, Option.some.injEq] at h
      subst h
      simp [hf]
    | succ j =>
      simp only [List.get?_cons_succ] at h
      simp only [List.set_cons_succ, List.map_cons, ih j x y h hf]

theorem simulateDataUpdates_threatTypes (now : Int) (rand : Nat → ℚ) (pos : Nat)
    (d : MockData) : (simulateDataUpdates now rand pos d).data.threatTypes = d.threatTypes := by
  unfold simulateDataUpdates
  dsimp only
  split_ifs with h
  · split <;> rfl
  · rfl

theorem simulateDataUpdates_regions_frame (now : Int) (rand : Nat → ℚ) (pos : Nat)
    (d : MockData) :
    (simulateDataUpdates now rand pos d).data.coastalRegions.map
        (fun r => (r.id, r.name, r.latitude, r.longitude, r.current_threats,
          r.population_at_risk)) =
      d.coastalRegions.map
        (fun r => (r.id, r.name, r.latitude, r.longitude, r.current_threats,
          r.population_at_risk)) := by
  by_cases h : rand (branchPos pos d) < 0.05
  · cases hr : jsIndex d.coastalRegions
        ⌊rand (branchPos pos d + 1) * (d.coastalRegions.length : ℚ)⌋ with
    | none =>
      have : (simulateDataUpdates now rand pos d).data.coastalRegions = d.coastalRegions := by
        unfold simulateDataUpdates
        simp only [loops_pos, h, if_true, hr]
      rw [this]
    | some region =>
      rw [(simulateDataUpdates_branch now rand pos d region h hr).1]
      have hget : d.coastalRegions.get?
          (⌊rand (branchPos pos d + 1) * (d.coastalRegions.length : ℚ)⌋).toNat = some region := by
        unfold jsIndex at hr
        split_ifs at hr
        exact hr
      exact map_set_same _ _ _ _ region hget rfl
  · rw [(simulateDataUpdates_no_branch now rand pos d h).1]

/-! ### The JSON image of a value -/

mutual
theorem jsonImage_of_noNaN : ∀ v : Json, v.noNaN = true → v.jsonImage = v
  | Json.nan, h => by simp [Json.noNaN] at h
  | Json.arr items, h => by
    simp only [Json.noNaN] at h
    simp only [Json.jsonImage, imageItems_of_noNaN items h]
  | Json.obj fields, h => by
    simp only [Json.noNaN] at h
    simp only [Json.jsonImage, imageFields_of_noNaN fields h]
  | Json.null, _ => by simp [Json.jsonImage]
  | Json.bool _, _ => by simp [Json.jsonImage]
  | Json.num _, _ => by simp [Json.jsonImage]
  | Json.str _, _ => by simp [Json.jsonImage]
theorem imageItems_of_noNaN : ∀ l : List Json, itemsNoNaN l = true → imageItems l = l
  | [], _ => by simp [imageItems]
  | x :: xs, h => by
    simp only [itemsNoNaN, Bool.and_eq_true] at h
    simp only [imageItems, jsonImage_of_noNaN x h.1, imageItems_of_noNaN xs h.2]
theorem imageFields_of_noNaN :
    ∀ l : List (String × Json), fieldsNoNaN l = true → imageFields l = l
  | [], _ => by simp [imageFields]
  | (k, v) :: rest, h => by
    simp only [fieldsNoNaN, Bool.and_eq_true] at h
    simp only [imageFields, jsonImage_of_noNaN v h.1, imageFields_of_noNaN rest h.2]
end

theorem imageFields_keys (l : List (String × Json)) :
    (imageFields l).map Prod.fst = l.map Prod.fst := by
  induction l with
  | nil => rfl
  | cons p rest ih =>
    obtain ⟨k, v⟩ := p
    simp only [imageFields, List.map_cons, ih]

theorem getProp_imageFields (l : List (String × Json)) (key : String) :
    getProp (imageFields l) key = (getProp l key).map Json.jsonImage := by
  induction l with
  | nil => rfl
  | cons p rest ih =>
    obtain ⟨k, v⟩ := p
    by_cases h : k = key
    · simp [imageFields, getProp, h]
    · simp [imageFields, getProp, h, ih]

theorem parseEmptyInterval_empty : parseEmptyInterval "" = none := by
  simp [parseEmptyInterval, emptyIntervalText]

theorem save_then_load_image (parse : String → Option Json) (stringify : Json → String)
    (ls : LocalStorage) (fields : JsObject)
    (haccess : ls.accessDenied = false) (hquota : ls.quotaExceeded = false)
    (hempty : parse "" = none)
    (hcodec : parse (stringify (Json.obj fields)) = some (Json.obj fields).jsonImage)
    (hkeys : distinctKeys fields)
    (hall : ∀ key ∈ defaultPreferences.map Prod.fst, getProp fields key ≠ none) :
    (saveUserPreferences stringify (Json.obj fields) ls).warning = none ∧
    ∀ key : String,
      getProp (getUserPreferences parse
        (saveUserPreferences stringify (Json.obj fields) ls).storage) key
        = (getProp fields key).map Json.jsonImage := by
  have hsave : saveUserPreferences stringify (Json.obj fields) ls =
      { storage :=
          { ls with
            items := storeItem ls.items preferencesKey (stringify (Json.obj fields)) }
        warning := none } := by
    simp [saveUserPreferences, LocalStorage.setItem, haccess, hquota]
  have hcodec' : parse (stringify (Json.obj fields)) = some (Json.obj (imageFields fields)) := by
    rw [hcodec]; simp [Json.jsonImage]
  have hkeys' : distinctKeys (imageFields fields) := by
    unfold distinctKeys at hkeys ⊢
    rw [imageFields_keys]; exact hkeys
  have hload := getUserPreferences_of_object parse
    { ls with items := storeItem ls.items preferencesKey (stringify (Json.obj fields)) }
    (stringify (Json.obj fields)) (imageFields fields) haccess (lookupItem_storeItem _ _ _)
    hempty hcodec'
  rw [hsave]
  refine ⟨rfl, fun key => ?_⟩
  show getProp (getUserPreferences parse
    { ls with items := storeItem ls.items preferencesKey (stringify (Json.obj fields)) }) key = _
  rw [hload, getProp_spread_obj (imageFields fields) hkeys', getProp_imageFields]
  cases hf : getProp fields key with
  | some v => rfl
  | none =>
    have hnot : key ∉ defaultPreferences.map Prod.fst := fun hmem => hall key hmem hf
    simp [getProp_eq_none defaultPreferences key hnot]

/-! ## Claims -/

/-- C1: after one or more calls of simulateDataUpdates every sensor has
tide_level in [0.5, 4.0], wave_height in [0.2, 3.0], wind_speed in [5, 50] and
water_temperature in [20, 35], for every sensor collection before the calls and
every random stream (in particular every stream of draws in [0,1)); the seed
sensors satisfy the bounds, so from the seed data the bounds hold after any
number of calls, zero included. -/
theorem sensors_within_bounds :
    (∀ (clock : Nat → Int) (rand : Nat → ℚ) (pos : Nat) (d : MockData) (n : Nat),
      sensorsInRange (runUpdates clock rand pos d (n + 1)).data.sensors) ∧
    (∀ now : Int, sensorsInRange (seedData now).sensors) ∧
    (∀ (now : Int) (clock : Nat → Int) (rand : Nat → ℚ) (pos : Nat) (n : Nat),
      sensorsInRange (runUpdates clock rand pos (seedData now) n).data.sensors) := by
  have step : ∀ (clock : Nat → Int) (rand : Nat → ℚ) (pos : Nat) (d : MockData) (n : Nat),
      sensorsInRange (runUpdates clock rand pos d (n + 1)).data.sensors := by
    intro clock rand pos d n
    show sensorsInRange (simulateDataUpdates _ _ _ _).data.sensors
    rw [simulateDataUpdates_sensors]
    exact updateSensors_inRange _ _ _ _
  refine ⟨step, fun now => seedSensors_inRange now, ?_⟩
  intro now clock rand pos n
  cases n with
  | zero => exact seedSensors_inRange now
  | succ m => exact step clock rand pos (seedData now) m

/-- C2: when the five form elements are present (in particular when all five
fields are populated), createAlert inserts exactly one new alert: the length
grows by one, the new alert is the first element, its status is 'Active', its
type, region, severity and expected_impact are the submitted values, and the
alerts already present follow it unchanged in their previous order. -/
theorem createAlert_inserts_front (now : Int) (rand : Nat → ℚ) (pos : Nat) (d : MockData)
    (alertType alertRegion alertSeverity alertImpact alertActions : String) :
    ∃ a : Alert,
      (createAlert now rand pos
        { alertType := some alertType, alertRegion := some alertRegion,
          alertSeverity := some alertSeverity, alertImpact := some alertImpact,
          alertActions := some alertActions } d).data.alerts = a :: d.alerts ∧
      (createAlert now rand pos
        { alertType := some alertType, alertRegion := some alertRegion,
          alertSeverity := some alertSeverity, alertImpact := some alertImpact,
          alertActions := some alertActions } d).data.alerts.length = d.alerts.length + 1 ∧
      a.status = "Active" ∧ a.type = alertType ∧ a.region = alertRegion ∧
      a.severity = alertSeverity ∧ a.expected_impact = alertImpact := by
  refine ⟨_, rfl, ?_, rfl, rfl, rfl, rfl, rfl⟩
  simp [createAlert]

/-- C3, as stated, fails: a submission whose type is the empty string is
accepted; on the seed data the collection grows from three alerts to four and
the success notification is shown. -/
theorem createAlert_accepts_empty_value :
    (createAlert 0 (fun _ => 0) 0
      { alertType := some "", alertRegion := some "Goa Beaches", alertSeverity := some "HIGH",
        alertImpact := some "Flooding", alertActions := some "Evacuate" }
      (seedData 0)).data.alerts.length = 4 ∧
    (seedData 0).alerts.length = 3 ∧
    (createAlert 0 (fun _ => 0) 0
      { alertType := some "", alertRegion := some "Goa Beaches", alertSeverity := some "HIGH",
        alertImpact := some "Flooding", alertActions := some "Evacuate" }
      (seedData 0)).notification = { message := "Alert created successfully!", type := "success" } := by
  decide

/-- C3, amended: when at least one of the five form elements is missing from
the document, createAlert shows the error notification 'Missing form
elements!' and leaves the data, hence the alert collection, unchanged. -/
theorem createAlert_missing_element (now : Int) (rand : Nat → ℚ) (pos : Nat) (d : MockData)
    (form : AlertForm)
    (h : form.alertType = none ∨ form.alertRegion = none ∨ form.alertSeverity = none ∨
      form.alertImpact = none ∨ form.alertActions = none) :
    (createAlert now rand pos form d).data = d ∧
    (createAlert now rand pos form d).data.alerts = d.alerts ∧
    (createAlert now rand pos form d).notification =
      { message := "Missing form elements!", type := "error" } := by
  obtain ⟨t, r, s, i, a⟩ := form
  cases t <;> cases r <;> cases s <;> cases i <;> cases a <;> simp_all [createAlert]

theorem createAlert_missing_element_witness :
    (createAlert 7 (fun _ => 0) 0
      { alertType := none, alertRegion := some "Goa Beaches", alertSeverity := some "HIGH",
        alertImpact := some "Flooding", alertActions := some "Evacuate" } (seedData 0)).data
      = seedData 0 ∧
    (createAlert 7 (fun _ => 0) 0
      { alertType := none, alertRegion := some "Goa Beaches", alertSeverity := some "HIGH",
        alertImpact := some "Flooding", alertActions := some "Evacuate" }
      (seedData 0)).data.alerts = (seedData 0).alerts ∧
    (createAlert 7 (fun _ => 0) 0
      { alertType := none, alertRegion := some "Goa Beaches", alertSeverity := some "HIGH",
        alertImpact := some "Flooding", alertActions := some "Evacuate" }
      (seedData 0)).notification = { message := "Missing form elements!", type := "error" } :=
  createAlert_missing_element 7 (fun _ => 0) 0 (seedData 0) _ (Or.inl rfl)

/-- C4, as stated, fails: two submissions in the same millisecond.  After
the first createAlert call at time 5 on the seed data the identifiers are
pairwise distinct; a second call at time 5 inserts an alert whose identifier
'ALERT_5' is already in the collection, and the identifiers are no longer
pairwise distinct. -/
theorem createAlert_duplicate_id :
    ((createAlert 5 (fun _ => 0) 0 exampleForm (seedData 0)).data.alerts.map Alert.id).Nodup ∧
    "ALERT_5" ∈ (createAlert 5 (fun _ => 0) 0 exampleForm (seedData 0)).data.alerts.map Alert.id ∧
    ((createAlert 5 (fun _ => 0) 1 exampleForm
      (createAlert 5 (fun _ => 0) 0 exampleForm (seedData 0)).data).data.alerts.map Alert.id).head?
      = some "ALERT_5" ∧
    ¬ ((createAlert 5 (fun _ => 0) 1 exampleForm
      (createAlert 5 (fun _ => 0) 0 exampleForm (seedData 0)).data).data.alerts.map
        Alert.id).Nodup := by
  decide

/-- C4, amended: when the identifiers of the collection are pairwise distinct
and none of them is 'ALERT_' followed by the current time, the identifiers are
pairwise distinct after createAlert; and starting from the seed data, after any
sequence of createAlert calls made at pairwise distinct times the identifiers
are pairwise distinct. -/
theorem alert_ids_stay_distinct :
    (∀ (now : Int) (rand : Nat → ℚ) (pos : Nat) (form : AlertForm) (d : MockData),
      (d.alerts.map Alert.id).Nodup →
      (∀ a ∈ d.alerts, a.id ≠ "ALERT_" ++ toString now) →
      ((createAlert now rand pos form d).data.alerts.map Alert.id).Nodup) ∧
    (∀ (t0 : Int) (rand : Nat → ℚ) (pos : Nat) (subs : List Submission),
      (subs.map Submission.now).Nodup →
      ((createAlerts rand pos (seedData t0) subs).alerts.map Alert.id).Nodup) := by
  constructor
  · intro now rand pos form d hnd hfresh
    rcases createAlert_cases now rand pos form d with hsame | ⟨a, haid, hal⟩
    · rw [hsame]; exact hnd
    · rw [hal, List.map_cons, List.nodup_cons]
      refine ⟨?_, hnd⟩
      intro hmem
      obtain ⟨x, hx, hxid⟩ := List.mem_map.mp hmem
      exact hfresh x hx (hxid.trans haid)
  · intro t0 rand pos subs htimes
    refine createAlerts_ids_nodup rand subs pos (seedData t0) [] ?_ ?_ ?_ htimes
    · simp [seedData, seedAlerts]
    · intro a ha
      exact Or.inl (seedAlerts_id_ne t0 a ha)
    · intro sub _ h
      exact absurd h (List.not_mem_nil _)

theorem alert_ids_stay_distinct_witness :
    ((createAlerts (fun _ => 0) 0 (seedData 0)
      [{ now := 5, form := exampleForm }, { now := 6, form := exampleForm }]).alerts.map
        Alert.id).Nodup :=
  alert_ids_stay_distinct.2 0 (fun _ => 0) 0
    [{ now := 5, form := exampleForm }, { now := 6, form := exampleForm }] (by decide)

/-- C5: for a non-empty severity value `s`, the list that filterAlerts renders
is exactly the alerts of the collection whose severity is `s`: every rendered
alert has severity `s`, every alert of the collection with severity `s` is
rendered, and the rendered alerts are a subsequence of the collection, in its
order. -/
theorem filterAlerts_by_severity (d : MockData) (s : String) (hs : s ≠ "") :
    ∃ shown : List Alert,
      (filterAlerts { severityFilter := some s, alertsTableBody := true } d).rendered = some shown ∧
      shown = d.alerts.filter (fun alert => decide (alert.severity = s)) ∧
      (∀ a ∈ shown, a.severity = s) ∧
      (∀ a ∈ d.alerts, a.severity = s → a ∈ shown) ∧
      shown.Sublist d.alerts := by
  refine ⟨d.alerts.filter (fun alert => decide (alert.severity = s)), ?_, rfl, ?_, ?_, ?_⟩
  · simp [filterAlerts, hs]
  · intro a ha
    simpa using (List.mem_filter.mp ha).2
  · intro a ha hsev
    exact List.mem_filter.mpr ⟨ha, by simpa using hsev⟩
  · exact List.filter_sublist _

theorem filterAlerts_by_severity_witness :
    ∃ shown : List Alert,
      (filterAlerts { severityFilter := some "HIGH", alertsTableBody := true }
        (seedData 0)).rendered = some shown ∧
      shown = (seedData 0).alerts.filter (fun alert => decide (alert.severity = "HIGH")) ∧
      (∀ a ∈ shown, a.severity = "HIGH") ∧
      (∀ a ∈ (seedData 0).alerts, a.severity = "HIGH" → a ∈ shown) ∧
      shown.Sublist (seedData 0).alerts :=
  filterAlerts_by_severity (seedData 0) "HIGH" (by decide)

/-- C6: with the empty filter value filterAlerts renders the full alert
collection, element for element and in the same order; and whatever the
filter value and the document, the stored data, hence the alert collection, is
left as it was. -/
theorem filterAlerts_unfiltered_and_frame :
    (∀ d : MockData,
      (filterAlerts { severityFilter := some "", alertsTableBody := true } d).rendered
        = some d.alerts) ∧
    (∀ (dom : FilterDom) (d : MockData), (filterAlerts dom d).data = d) ∧
    (∀ (dom : FilterDom) (d : MockData), (filterAlerts dom d).data.alerts = d.alerts) := by
  have frame : ∀ (dom : FilterDom) (d : MockData), (filterAlerts dom d).data = d := by
    intro dom d
    unfold filterAlerts
    split
    · rfl
    · split <;> rfl
  refine ⟨fun d => by simp [filterAlerts], frame, fun dom d => by rw [frame]⟩

/-- C7: when the store holds no value under 'coastalAlertPreferences',
getUserPreferences returns exactly the default record: the three notification
toggles true, minSeverity 'MEDIUM', theme 'auto', refreshInterval 10, the
default endpoint, backupFrequency 'daily', apiKey empty, and no other field. -/
theorem getUserPreferences_empty_store (parse : String → Option Json) (ls : LocalStorage)
    (h : lookupItem ls.items "coastalAlertPreferences" = none) :
    getUserPreferences parse ls =
      [ ("notifications",
          Json.obj [("email", Json.bool true), ("sms", Json.bool true), ("push", Json.bool true)]),
        ("minSeverity", Json.str "MEDIUM"),
        ("theme", Json.str "auto"),
        ("refreshInterval", Json.num 10),
        ("apiEndpoint", Json.str "https://api.coastalguard.com/v1"),
        ("backupFrequency", Json.str "daily"),
        ("apiKey", Json.str "") ] := by
  unfold getUserPreferences LocalStorage.getItem preferencesKey
  by_cases hd : ls.accessDenied = true
  · simp [hd, defaultPreferences]
  · simp [hd, h, defaultPreferences]

theorem getUserPreferences_empty_store_witness :
    lookupItem ([] : List (String × String)) "coastalAlertPreferences" = none ∧
    getUserPreferences (fun _ => none)
      { items := [], accessDenied := false, quotaExceeded := false } =
      [ ("notifications",
          Json.obj [("email", Json.bool true), ("sms", Json.bool true), ("push", Json.bool true)]),
        ("minSeverity", Json.str "MEDIUM"),
        ("theme", Json.str "auto"),
        ("refreshInterval", Json.num 10),
        ("apiEndpoint", Json.str "https://api.coastalguard.com/v1"),
        ("backupFrequency", Json.str "daily"),
        ("apiKey", Json.str "") ] :=
  ⟨rfl, getUserPreferences_empty_store (fun _ => none)
    { items := [], accessDenied := false, quotaExceeded := false } rfl⟩


/-- C8, as stated, fails: the record that saveSettings builds when the
refresh-interval field is empty has all seven fields, its refreshInterval being
NaN.  `JSON.stringify` writes NaN as `null`, so after saveUserPreferences on a
store whose write succeeds getUserPreferences returns a record whose
refreshInterval is `null`, not the NaN that was saved. -/
theorem save_then_load_nan :
    (settingsRecord emptyIntervalForm).map Prod.fst =
      ["notifications", "minSeverity", "theme", "refreshInterval", "apiEndpoint",
        "backupFrequency", "apiKey"] ∧
    getProp (settingsRecord emptyIntervalForm) "refreshInterval" = some Json.nan ∧
    parseEmptyInterval emptyIntervalText =
      some (Json.obj (settingsRecord emptyIntervalForm)).jsonImage ∧
    (saveUserPreferences (fun _ => emptyIntervalText)
      (Json.obj (settingsRecord emptyIntervalForm))
      { items := [], accessDenied := false, quotaExceeded := false }).warning = none ∧
    getProp (getUserPreferences parseEmptyInterval
      (saveUserPreferences (fun _ => emptyIntervalText)
        (Json.obj (settingsRecord emptyIntervalForm))
        { items := [], accessDenied := false, quotaExceeded := false }).storage)
      "refreshInterval" = some Json.null ∧
    getProp (getUserPreferences parseEmptyInterval
      (saveUserPreferences (fun _ => emptyIntervalText)
        (Json.obj (settingsRecord emptyIntervalForm))
        { items := [], accessDenied := false, quotaExceeded := false }).storage)
      "refreshInterval" ≠ getProp (settingsRecord emptyIntervalForm) "refreshInterval" := by
  have hcodec : parseEmptyInterval emptyIntervalText =
      some (Json.obj (settingsRecord emptyIntervalForm)).jsonImage := by
    simp [parseEmptyInterval, settingsRecord, emptyIntervalForm, Json.jsonImage, imageFields]
  have hload := save_then_load_image parseEmptyInterval (fun _ => emptyIntervalText)
    { items := [], accessDenied := false, quotaExceeded := false }
    (settingsRecord emptyIntervalForm) rfl rfl parseEmptyInterval_empty hcodec
    (by unfold distinctKeys; decide)
    (by
      intro key hkey
      simp only [defaultPreferences, List.map_cons, List.map_nil, List.mem_cons,
        List.mem_singleton, List.not_mem_nil, or_false] at hkey
      rcases hkey with h | h | h | h | h | h | h <;> subst h <;>
        simp [getProp, settingsRecord])
  have hfield : getProp (settingsRecord emptyIntervalForm) "refreshInterval" = some Json.nan := by
    simp [getProp, settingsRecord, emptyIntervalForm]
  have hnull : getProp (getUserPreferences parseEmptyInterval
      (saveUserPreferences (fun _ => emptyIntervalText)
        (Json.obj (settingsRecord emptyIntervalForm))
        { items := [], accessDenied := false, quotaExceeded := false }).storage)
      "refreshInterval" = some Json.null := by
    rw [hload.2 "refreshInterval", hfield]
    simp [Json.jsonImage]
  refine ⟨rfl, hfield, hcodec, hload.1, hnull, ?_⟩
  rw [hnull, hfield]
  simp

/-- C8, amended: for a record that has all the fields of the default record,
and a store whose write succeeds, saveUserPreferences followed by
getUserPreferences returns, whatever the store held before, the record as JSON
writes it: every field has the saved value with each NaN replaced by `null`;
so a record in which no number is NaN is returned with the same value as the
saved one for every field.  `JSON.stringify` and `JSON.parse` are the host
functions: reading back the text written for a record gives the record with
each NaN replaced by `null`, and `JSON.parse` raises on the empty text. -/
theorem save_then_load (parse : String → Option Json) (stringify : Json → String)
    (ls : LocalStorage) (fields : JsObject)
    (haccess : ls.accessDenied = false) (hquota : ls.quotaExceeded = false)
    (hempty : parse "" = none)
    (hcodec : parse (stringify (Json.obj fields)) = some (Json.obj fields).jsonImage)
    (hkeys : distinctKeys fields)
    (hall : ∀ key ∈ defaultPreferences.map Prod.fst, getProp fields key ≠ none) :
    (saveUserPreferences stringify (Json.obj fields) ls).warning = none ∧
    (∀ key : String,
      getProp (getUserPreferences parse
        (saveUserPreferences stringify (Json.obj fields) ls).storage) key
        = (getProp fields key).map Json.jsonImage) ∧
    ((Json.obj fields).noNaN = true →
      ∀ key : String,
        getProp (getUserPreferences parse
          (saveUserPreferences stringify (Json.obj fields) ls).storage) key
          = getProp fields key) := by
  obtain ⟨hwarn, hload⟩ := save_then_load_image parse stringify ls fields haccess hquota hempty
    hcodec hkeys hall
  refine ⟨hwarn, hload, fun hjson key => ?_⟩
  have hfields : imageFields fields = fields :=
    imageFields_of_noNaN fields (by simpa [Json.noNaN] using hjson)
  rw [hload key, ← getProp_imageFields, hfields]

theorem save_then_load_witness :
    (saveUserPreferences (fun _ => defaultPreferencesText) (Json.obj defaultPreferences)
      { items := [("coastalAlertPreferences", "\x7b\"theme\":\"dark\"\x7d")],
        accessDenied := false, quotaExceeded := false }).warning = none ∧
    getProp (getUserPreferences parseExamples
      (saveUserPreferences (fun _ => defaultPreferencesText) (Json.obj defaultPreferences)
        { items := [("coastalAlertPreferences", "\x7b\"theme\":\"dark\"\x7d")],
          accessDenied := false, quotaExceeded := false }).storage) "theme"
      = getProp defaultPreferences "theme" :=
  have h := save_then_load parseExamples (fun _ => defaultPreferencesText)
    { items := [("coastalAlertPreferences", "\x7b\"theme\":\"dark\"\x7d")],
      accessDenied := false, quotaExceeded := false }
    defaultPreferences rfl rfl parseExamples_empty
    (by rw [jsonImage_of_noNaN (Json.obj defaultPreferences) rfl]; simp [parseExamples])
    (by unfold distinctKeys; decide)
    (by
      intro key hkey
      simp only [defaultPreferences, List.map_cons, List.map_nil, List.mem_cons,
        List.mem_singleton, List.not_mem_nil, or_false] at hkey
      rcases hkey with h | h | h | h | h | h | h <;> subst h <;> simp [getProp])
  ⟨h.1, h.2.2 rfl "theme"⟩

/-- C9: for a stored value that parses as a JSON object, getUserPreferences
returns for every field, in particular for each of the seven preference fields,
the stored value when the stored object has the field and the default when it
does not; the seven fields are the fields of the default record. -/
theorem getUserPreferences_field_by_field (parse : String → Option Json) (ls : LocalStorage)
    (stored : String) (fields : JsObject)
    (haccess : ls.accessDenied = false)
    (hstored : lookupItem ls.items "coastalAlertPreferences" = some stored)
    (hempty : parse "" = none)
    (hparse : parse stored = some (Json.obj fields))
    (hkeys : distinctKeys fields) :
    (∀ (key : String) (v : Json), getProp fields key = some v →
      getProp (getUserPreferences parse ls) key = some v) ∧
    (∀ key : String, getProp fields key = none →
      getProp (getUserPreferences parse ls) key = getProp defaultPreferences key) ∧
    defaultPreferences.map Prod.fst =
      ["notifications", "minSeverity", "theme", "refreshInterval", "apiEndpoint",
        "backupFrequency", "apiKey"] := by
  have hres := getUserPreferences_of_object parse ls stored fields haccess hstored hempty hparse
  refine ⟨fun key v hv => ?_, fun key hv => ?_, rfl⟩
  · rw [hres, getProp_spread_obj fields hkeys, hv]
  · rw [hres, getProp_spread_obj fields hkeys, hv]

theorem getUserPreferences_field_by_field_witness :
    getProp (getUserPreferences parseExamples
      { items := [("coastalAlertPreferences", "\x7b\"theme\":\"dark\"\x7d")],
        accessDenied := false, quotaExceeded := false }) "theme" = some (Json.str "dark") ∧
    getProp (getUserPreferences parseExamples
      { items := [("coastalAlertPreferences", "\x7b\"theme\":\"dark\"\x7d")],
        accessDenied := false, quotaExceeded := false }) "refreshInterval"
      = getProp defaultPreferences "refreshInterval" :=
  have h := getUserPreferences_field_by_field parseExamples
    { items := [("coastalAlertPreferences", "\x7b\"theme\":\"dark\"\x7d")],
      accessDenied := false, quotaExceeded := false }
    "\x7b\"theme\":\"dark\"\x7d" [("theme", Json.str "dark")] rfl rfl parseExamples_empty (by simp [parseExamples, emailOnlyText, defaultPreferencesText])
    (by unfold distinctKeys; decide)
  ⟨h.1 "theme" (Json.str "dark") rfl, h.2.1 "refreshInterval" rfl⟩

/-- C10, as stated, fails: for the stored record
`{"notifications":{"email":false}}` the returned record has the stored email
toggle and no sms and no push toggle at all, so the missing toggles do not
take the default value true. -/
theorem notification_toggles_not_defaulted :
    notificationToggle (getUserPreferences parseExamples
      { items := [("coastalAlertPreferences", emailOnlyText)],
        accessDenied := false, quotaExceeded := false }) "email" = some (Json.bool false) ∧
    notificationToggle (getUserPreferences parseExamples
      { items := [("coastalAlertPreferences", emailOnlyText)],
        accessDenied := false, quotaExceeded := false }) "sms" = none ∧
    notificationToggle (getUserPreferences parseExamples
      { items := [("coastalAlertPreferences", emailOnlyText)],
        accessDenied := false, quotaExceeded := false }) "push" = none ∧
    notificationToggle (getUserPreferences parseExamples
      { items := [("coastalAlertPreferences", emailOnlyText)],
        accessDenied := false, quotaExceeded := false }) "sms" ≠ some (Json.bool true) := by
  have h : getUserPreferences parseExamples
      { items := [("coastalAlertPreferences", emailOnlyText)],
        accessDenied := false, quotaExceeded := false } =
      spread defaultPreferences (Json.obj [("notifications", Json.obj [("email", Json.bool false)])]) :=
    getUserPreferences_of_object parseExamples _ emailOnlyText _ rfl rfl parseExamples_empty (by simp [parseExamples, emailOnlyText, defaultPreferencesText])
  rw [h]
  simp [spread, ownEntries, defaultPreferences, setProp, notificationToggle, getProp]

/-- C10, amended: when the stored record has a notifications object, the
returned record has that object as it is stored: a toggle that is present has
its stored value and a toggle that is missing stays absent, no default being
substituted; when the stored record has no notifications field, the three
toggles have the default value true. -/
theorem notifications_taken_whole (parse : String → Option Json) (ls : LocalStorage)
    (stored : String) (fields : JsObject)
    (haccess : ls.accessDenied = false)
    (hstored : lookupItem ls.items "coastalAlertPreferences" = some stored)
    (hempty : parse "" = none)
    (hparse : parse stored = some (Json.obj fields))
    (hkeys : distinctKeys fields) :
    (∀ toggles : JsObject, getProp fields "notifications" = some (Json.obj toggles) →
      ∀ toggle : String,
        notificationToggle (getUserPreferences parse ls) toggle = getProp toggles toggle) ∧
    (getProp fields "notifications" = none →
      notificationToggle (getUserPreferences parse ls) "email" = some (Json.bool true) ∧
      notificationToggle (getUserPreferences parse ls) "sms" = some (Json.bool true) ∧
      notificationToggle (getUserPreferences parse ls) "push" = some (Json.bool true)) := by
  have hres := getUserPreferences_of_object parse ls stored fields haccess hstored hempty hparse
  constructor
  · intro toggles hn toggle
    unfold notificationToggle
    rw [hres, getProp_spread_obj fields hkeys, hn]
  · intro hn
    unfold notificationToggle
    rw [hres, getProp_spread_obj fields hkeys, hn]
    simp [defaultPreferences, getProp]

theorem notifications_taken_whole_witness :
    (∀ toggle : String,
      notificationToggle (getUserPreferences parseExamples
        { items := [("coastalAlertPreferences", emailOnlyText)],
          accessDenied := false, quotaExceeded := false }) toggle
        = getProp [("email", Json.bool false)] toggle) ∧
    notificationToggle (getUserPreferences parseExamples
      { items := [("coastalAlertPreferences", "\x7b\"theme\":\"dark\"\x7d")],
        accessDenied := false, quotaExceeded := false }) "sms" = some (Json.bool true) :=
  ⟨(notifications_taken_whole parseExamples
      { items := [("coastalAlertPreferences", emailOnlyText)],
        accessDenied := false, quotaExceeded := false }
      emailOnlyText [("notifications", Json.obj [("email", Json.bool false)])]
      rfl rfl parseExamples_empty (by simp [parseExamples, emailOnlyText, defaultPreferencesText]) (by unfold distinctKeys; decide)).1
      [("email", Json.bool false)] rfl,
   ((notifications_taken_whole parseExamples
      { items := [("coastalAlertPreferences", "\x7b\"theme\":\"dark\"\x7d")],
        accessDenied := false, quotaExceeded := false }
      "\x7b\"theme\":\"dark\"\x7d" [("theme", Json.str "dark")]
      rfl rfl parseExamples_empty (by simp [parseExamples, emailOnlyText, defaultPreferencesText]) (by unfold distinctKeys; decide)).2 rfl).2.1⟩

/-- C11: getUserPreferences never fails outward: it returns a record for
every state of the store, and when the read raises or the stored text is not
valid JSON the record returned is exactly the default record. -/
theorem getUserPreferences_failure_defaults (parse : String → Option Json) (ls : LocalStorage)
    (h : ls.accessDenied = true ∨
      ∃ stored : String, lookupItem ls.items "coastalAlertPreferences" = some stored ∧
        parse stored = none) :
    (∃ record : JsObject, getUserPreferences parse ls = record) ∧
    getUserPreferences parse ls =
      [ ("notifications",
          Json.obj [("email", Json.bool true), ("sms", Json.bool true), ("push", Json.bool true)]),
        ("minSeverity", Json.str "MEDIUM"),
        ("theme", Json.str "auto"),
        ("refreshInterval", Json.num 10),
        ("apiEndpoint", Json.str "https://api.coastalguard.com/v1"),
        ("backupFrequency", Json.str "daily"),
        ("apiKey", Json.str "") ] := by
  refine ⟨⟨_, rfl⟩, ?_⟩
  unfold getUserPreferences LocalStorage.getItem preferencesKey
  by_cases hd : ls.accessDenied = true
  · simp [hd, defaultPreferences]
  · rcases h with h | ⟨stored, hs, hp⟩
    · exact absurd h hd
    · by_cases he : stored = ""
      · simp [hd, hs, he, defaultPreferences]
      · simp [hd, hs, he, hp, defaultPreferences]

theorem getUserPreferences_failure_defaults_witness :
    getUserPreferences parseExamples
      { items := [("coastalAlertPreferences", "not json")],
        accessDenied := false, quotaExceeded := false } =
      [ ("notifications",
          Json.obj [("email", Json.bool true), ("sms", Json.bool true), ("push", Json.bool true)]),
        ("minSeverity", Json.str "MEDIUM"),
        ("theme", Json.str "auto"),
        ("refreshInterval", Json.num 10),
        ("apiEndpoint", Json.str "https://api.coastalguard.com/v1"),
        ("backupFrequency", Json.str "daily"),
        ("apiKey", Json.str "") ] :=
  (getUserPreferences_failure_defaults parseExamples
    { items := [("coastalAlertPreferences", "not json")],
      accessDenied := false, quotaExceeded := false }
    (Or.inr ⟨"not json", rfl,
      by simp [parseExamples, emailOnlyText, defaultPreferencesText]⟩)).2

/-- C12: saveUserPreferences never propagates a failure: when the storage
write raises, the call still returns, with the warning 'Unable to save
preferences:' logged, the storage is left as it was, and a later
getUserPreferences returns what it returned before the failed save. -/
theorem saveUserPreferences_failure (stringify : Json → String) (preferences : Json)
    (ls : LocalStorage) (h : ls.accessDenied = true ∨ ls.quotaExceeded = true) :
    (∃ e : String, (saveUserPreferences stringify preferences ls).warning =
      some ("Unable to save preferences:", e)) ∧
    (saveUserPreferences stringify preferences ls).storage = ls ∧
    ∀ parse : String → Option Json,
      getUserPreferences parse (saveUserPreferences stringify preferences ls).storage =
        getUserPreferences parse ls := by
  have hs : (saveUserPreferences stringify preferences ls).storage = ls := by
    unfold saveUserPreferences LocalStorage.setItem
    by_cases hd : ls.accessDenied = true
    · simp [hd]
    · rcases h with h | h
      · exact absurd h hd
      · simp [hd, h]
  refine ⟨?_, hs, fun parse => by rw [hs]⟩
  unfold saveUserPreferences LocalStorage.setItem
  by_cases hd : ls.accessDenied = true
  · exact ⟨"SecurityError", by simp [hd]⟩
  · rcases h with h | h
    · exact absurd h hd
    · exact ⟨"QuotaExceededError", by simp [hd, h]⟩

theorem saveUserPreferences_failure_witness :
    (saveUserPreferences (fun _ => defaultPreferencesText) (Json.obj defaultPreferences)
      { items := [("coastalAlertPreferences", emailOnlyText)],
        accessDenied := false, quotaExceeded := true }).storage =
      { items := [("coastalAlertPreferences", emailOnlyText)],
        accessDenied := false, quotaExceeded := true } :=
  (saveUserPreferences_failure (fun _ => defaultPreferencesText) (Json.obj defaultPreferences)
    { items := [("coastalAlertPreferences", emailOnlyText)],
      accessDenied := false, quotaExceeded := true } (Or.inr rfl)).2.1

/-- C13: after init one interval timer is live; after every sequence of
restartDataUpdates calls made through saveSettings, resetSettings or
handleRefreshIntervalChange exactly one timer is live, its handle is the one
stored in dataUpdateTimer, it is the timer that the last restart created (its
handle is the one `setInterval` handed out in that restart) and its delay is
the refresh interval assigned at that restart; a timer that was live before a
restart is live in no later state. -/
theorem restart_leaves_one_timer (firstHandle : Nat) (hfirst : 0 < firstHandle) (seconds : Int) :
    (initScheduler firstHandle seconds).live.length = 1 ∧
    (∀ events : List SettingsEvent,
      (runEvents (initScheduler firstHandle seconds) events).oneTimer) ∧
    (∀ (pre : List SettingsEvent) (e : SettingsEvent),
      (runEvents (initScheduler firstHandle seconds) (pre ++ [e])).live =
        [{ handle := (runEvents (initScheduler firstHandle seconds) pre).nextHandle,
           delay := e.interval }]) ∧
    (∀ pre rest : List SettingsEvent, rest ≠ [] →
      ∀ t ∈ (runEvents (initScheduler firstHandle seconds) pre).live,
        ∀ t' ∈ (runEvents (initScheduler firstHandle seconds) (pre ++ rest)).live,
          t'.handle ≠ t.handle) := by
  have hinit := initScheduler_oneTimer firstHandle hfirst seconds
  refine ⟨rfl, fun events => (runEvents_oneTimer events _ hinit).1, ?_, ?_⟩
  · intro pre e
    rw [runEvents_append]
    exact (apply_oneTimer e _ (runEvents_oneTimer pre _ hinit).1).2.1
  · intro pre rest hrest t ht t' ht'
    rw [runEvents_append] at ht'
    have hpre := (runEvents_oneTimer pre _ hinit).1
    have hge := (runEvents_oneTimer rest _ hpre).2.2 hrest t' ht'
    obtain ⟨handle, _, hlt, hlive, _⟩ := hpre
    rw [hlive, List.mem_singleton] at ht
    rw [ht]
    show t'.handle ≠ handle
    omega

theorem restart_leaves_one_timer_witness :
    (runEvents (initScheduler 1 10)
      [SettingsEvent.saveSettings 5, SettingsEvent.resetSettings]).oneTimer ∧
    (runEvents (initScheduler 1 10) ([] ++ [SettingsEvent.saveSettings 5])).live =
      [{ handle := (runEvents (initScheduler 1 10) []).nextHandle,
         delay := (SettingsEvent.saveSettings 5).interval }] :=
  ⟨(restart_leaves_one_timer 1 (by decide) 10).2.1 _,
   (restart_leaves_one_timer 1 (by decide) 10).2.2.1 [] (SettingsEvent.saveSettings 5)⟩

/-- C14: after one or more calls of simulateDataUpdates every weather record
has temperature in [20, 40], humidity in [40, 95], pressure in [995, 1025] and
wind_speed in [5, 50], for every weather collection before the calls and every
random stream (in particular every stream of draws in [0,1)); the three seed
weather records satisfy the bounds. -/
theorem weather_within_bounds :
    (∀ (clock : Nat → Int) (rand : Nat → ℚ) (pos : Nat) (d : MockData) (n : Nat),
      weatherInRange (runUpdates clock rand pos d (n + 1)).data.weather) ∧
    (∀ now : Int, weatherInRange (seedData now).weather) ∧
    (seedData 0).weather.length = 3 := by
  refine ⟨?_, fun _ => seedWeather_inRange, rfl⟩
  intro clock rand pos d n
  show weatherInRange (simulateDataUpdates _ _ _ _).data.weather
  rw [simulateDataUpdates_weather]
  exact updateWeathers_inRange _ _ _

/-- C15: for a non-empty region collection of length n, when the threat-level
branch of simulateDataUpdates is taken and the two draws r and r' that follow
are in [0,1), the index floor(r*n) is a valid index; the region at that index
gets as threat_level the element floor(r'*3) of 'low', 'medium', 'high' and as
last_updated the current time, its other fields staying as they were; every
other region is left unchanged; no exception escapes. -/
theorem threat_level_update (now : Int) (rand : Nat → ℚ) (pos : Nat) (d : MockData)
    (hne : d.coastalRegions ≠ [])
    (hbranch : rand (branchPos pos d) < 0.05)
    (h1 : 0 ≤ rand (branchPos pos d + 1) ∧ rand (branchPos pos d + 1) < 1)
    (h2 : 0 ≤ rand (branchPos pos d + 2) ∧ rand (branchPos pos d + 2) < 1) :
    ∃ (i : Nat) (region : Region) (lvl : String),
      (i : Int) = ⌊rand (branchPos pos d + 1) * (d.coastalRegions.length : ℚ)⌋ ∧
      i < d.coastalRegions.length ∧
      d.coastalRegions.get? i = some region ∧
      ["low", "medium", "high"].get? (⌊rand (branchPos pos d + 2) * 3⌋).toNat = some lvl ∧
      (lvl = "low" ∨ lvl = "medium" ∨ lvl = "high") ∧
      (simulateDataUpdates now rand pos d).error = none ∧
      (simulateDataUpdates now rand pos d).data.coastalRegions =
        d.coastalRegions.set i
          { id := region.id, name := region.name, latitude := region.latitude,
            longitude := region.longitude, threat_level := some lvl,
            current_threats := region.current_threats,
            population_at_risk := region.population_at_risk, last_updated := now } ∧
      (∀ j : Nat, j ≠ i →
        (simulateDataUpdates now rand pos d).data.coastalRegions.get? j
          = d.coastalRegions.get? j) := by
  have hn : 0 < d.coastalRegions.length := List.length_pos.mpr hne
  obtain ⟨hi0, hilt⟩ := floor_index _ _ h1.1 h1.2 hn
  have h3 : (0 : Nat) < 3 := by norm_num
  obtain ⟨hl0, hllt⟩ := floor_index _ 3 h2.1 h2.2 h3
  have hcast : ((3 : Nat) : ℚ) = 3 := by norm_num
  rw [hcast] at hl0 hllt
  have hllt : (⌊rand (branchPos pos d + 2) * 3⌋).toNat < levels.length := hllt
  have hlevels : ∀ x ∈ levels, x = "low" ∨ x = "medium" ∨ x = "high" := by
    intro x hx
    simpa [levels] using hx
  have hregion : jsIndex d.coastalRegions
      ⌊rand (branchPos pos d + 1) * (d.coastalRegions.length : ℚ)⌋ =
      some (d.coastalRegions.get ⟨_, hilt⟩) := by
    unfold jsIndex
    rw [if_pos hi0]
    exact List.get?_eq_get hilt
  have hlvl : jsIndex levels ⌊rand (branchPos pos d + 2) * (levels.length : ℚ)⌋ =
      some (levels.get ⟨(⌊rand (branchPos pos d + 2) * 3⌋).toNat, hllt⟩) := by
    have hlen : ((levels.length : Nat) : ℚ) = 3 := by norm_num [levels]
    unfold jsIndex
    rw [hlen, if_pos hl0]
    exact List.get?_eq_get hllt
  obtain ⟨hset, herr⟩ := simulateDataUpdates_branch now rand pos d _ hbranch hregion
  refine ⟨_, d.coastalRegions.get ⟨_, hilt⟩, levels.get ⟨_, hllt⟩, ?_, hilt,
    List.get?_eq_get hilt, List.get?_eq_get hllt, ?_, herr, ?_, ?_⟩
  · exact Int.toNat_of_nonneg hi0
  · exact hlevels _ (List.get_mem levels (⌊rand (branchPos pos d + 2) * 3⌋).toNat hllt)
  · rw [hset, hlvl]
  · intro j hj
    rw [hset]
    rw [List.get?_eq_getElem?, List.get?_eq_getElem?]
    exact List.getElem?_set_ne (Ne.symm hj)

theorem threat_level_update_witness :
    ∃ (i : Nat) (region : Region) (lvl : String),
      (i : Int) = ⌊(fun _ => (1 / 100 : ℚ)) (branchPos 0 (seedData 0) + 1) *
        ((seedData 0).coastalRegions.length : ℚ)⌋ ∧
      i < (seedData 0).coastalRegions.length ∧
      (seedData 0).coastalRegions.get? i = some region ∧
      ["low", "medium", "high"].get?
        (⌊(fun _ => (1 / 100 : ℚ)) (branchPos 0 (seedData 0) + 2) * 3⌋).toNat = some lvl ∧
      (lvl = "low" ∨ lvl = "medium" ∨ lvl = "high") ∧
      (simulateDataUpdates 7 (fun _ => 1 / 100) 0 (seedData 0)).error = none ∧
      (simulateDataUpdates 7 (fun _ => 1 / 100) 0 (seedData 0)).data.coastalRegions =
        (seedData 0).coastalRegions.set i
          { id := region.id, name := region.name, latitude := region.latitude,
            longitude := region.longitude, threat_level := some lvl,
            current_threats := region.current_threats,
            population_at_risk := region.population_at_risk, last_updated := 7 } ∧
      (∀ j : Nat, j ≠ i →
        (simulateDataUpdates 7 (fun _ => 1 / 100) 0 (seedData 0)).data.coastalRegions.get? j
          = (seedData 0).coastalRegions.get? j) :=
  threat_level_update 7 (fun _ => 1 / 100) 0 (seedData 0) (by simp [seedData, seedRegions])
    (by norm_num) (by norm_num) (by norm_num)

/-- C16: over any number of simulateDataUpdates calls in none of which the
threat-level branch is taken (the branch draw of every call is at least 0.05),
the region collection is unchanged, so every region keeps its threat_level and
its last_updated. -/
theorem regions_unchanged_without_branch (clock : Nat → Int) (rand : Nat → ℚ) (pos : Nat)
    (d : MockData) (n : Nat)
    (h : ∀ k < n, ¬ rand (branchPos (runUpdates clock rand pos d k).pos
      (runUpdates clock rand pos d k).data) < 0.05) :
    (runUpdates clock rand pos d n).data.coastalRegions = d.coastalRegions := by
  induction n with
  | zero => rfl
  | succ m ih =>
    have hm := ih (fun k hk => h k (Nat.lt_succ_of_lt hk))
    show (simulateDataUpdates (clock m) rand (runUpdates clock rand pos d m).pos
      (runUpdates clock rand pos d m).data).data.coastalRegions = d.coastalRegions
    rw [(simulateDataUpdates_no_branch _ _ _ _ (h m (Nat.lt_succ_self m))).1, hm]

theorem regions_unchanged_without_branch_witness :
    (runUpdates (fun k => (k : Int)) (fun _ => 1 / 2) 0 fixtureData 1000).data.coastalRegions =
      [ { id := "region_001", name := "", latitude := 0, longitude := 0,
          threat_level := some "low", current_threats := [], population_at_risk := 0,
          last_updated := 0 } ] :=
  regions_unchanged_without_branch (fun k => (k : Int)) (fun _ => 1 / 2) 0 fixtureData 1000
    (fun _ _ => by norm_num)

/-- C17: for a draw r in [0,1) the estimated_affected that createAlert
assigns is floor(r*50000)+1000, an integer n with 1000 <= n < 51000; and every
integer of that range is assigned for some draw in [0,1). -/
theorem estimated_affected_range :
    (∀ (now : Int) (rand : Nat → ℚ) (pos : Nat) (d : MockData)
      (alertType alertRegion alertSeverity alertImpact alertActions : String),
      0 ≤ rand pos → rand pos < 1 →
      ∃ a : Alert,
        (createAlert now rand pos
          { alertType := some alertType, alertRegion := some alertRegion,
            alertSeverity := some alertSeverity, alertImpact := some alertImpact,
            alertActions := some alertActions } d).data.alerts = a :: d.alerts ∧
        a.estimated_affected = ⌊rand pos * 50000⌋ + 1000 ∧
        1000 ≤ a.estimated_affected ∧ a.estimated_affected < 51000) ∧
    (∀ n : Int, 1000 ≤ n → n < 51000 →
      ∃ r : ℚ, 0 ≤ r ∧ r < 1 ∧
        ∀ (now : Int) (pos : Nat) (d : MockData)
          (alertType alertRegion alertSeverity alertImpact alertActions : String),
          ∃ a : Alert,
            (createAlert now (fun _ => r) pos
              { alertType := some alertType, alertRegion := some alertRegion,
                alertSeverity := some alertSeverity, alertImpact := some alertImpact,
                alertActions := some alertActions } d).data.alerts = a :: d.alerts ∧
            a.estimated_affected = n) := by
  constructor
  · intro now rand pos d ty rg sv im ac h0 h1
    refine ⟨_, createAlert_present now rand pos d ty rg sv im ac, rfl, ?_, ?_⟩
    · have : 0 ≤ ⌊rand pos * 50000⌋ := Int.floor_nonneg.mpr (by positivity)
      show 1000 ≤ ⌊rand pos * 50000⌋ + 1000
      omega
    · have : ⌊rand pos * 50000⌋ < 50000 := by
        rw [Int.floor_lt]
        push_cast
        linarith
      show ⌊rand pos * 50000⌋ + 1000 < 51000
      omega
  · intro n hlo hhi
    have hfloor : ⌊((n - 1000 : Int) : ℚ) / 50000 * 50000⌋ = n - 1000 := by
      rw [div_mul_cancel₀ _ (by norm_num : (50000 : ℚ) ≠ 0)]
      exact Int.floor_intCast _
    refine ⟨((n - 1000 : Int) : ℚ) / 50000, ?_, ?_, ?_⟩
    · apply div_nonneg
      · exact_mod_cast (by omega : (0 : Int) ≤ n - 1000)
      · norm_num
    · rw [div_lt_one (by norm_num)]
      exact_mod_cast (by omega : n - 1000 < 50000)
    · intro now pos d ty rg sv im ac
      refine ⟨_, createAlert_present now _ pos d ty rg sv im ac, ?_⟩
      show ⌊((n - 1000 : Int) : ℚ) / 50000 * 50000⌋ + 1000 = n
      rw [hfloor]
      omega

theorem estimated_affected_range_witness :
    ∃ a : Alert,
      (createAlert 0 (fun _ => 1 / 2) 0
        { alertType := some "High Tide Warning", alertRegion := some "Goa Beaches",
          alertSeverity := some "HIGH", alertImpact := some "Flooding",
          alertActions := some "Close the beach" } (seedData 0)).data.alerts
        = a :: (seedData 0).alerts ∧
      a.estimated_affected = ⌊(fun _ => (1 / 2 : ℚ)) 0 * 50000⌋ + 1000 ∧
      1000 ≤ a.estimated_affected ∧ a.estimated_affected < 51000 :=
  estimated_affected_range.1 0 (fun _ => 1 / 2) 0 (seedData 0) "High Tide Warning"
    "Goa Beaches" "HIGH" "Flooding" "Close the beach" (by norm_num) (by norm_num)

/-- C18: the recommended_actions that createAlert stores is the actions text
split at its newlines, in order: the sequence is non-empty, no element
contains a newline, it has one more element than the text has newlines, and
joining its elements with a newline gives back the text. -/
theorem recommended_actions_split (now : Int) (rand : Nat → ℚ) (pos : Nat) (d : MockData)
    (alertType alertRegion alertSeverity alertImpact alertActions : String) :
    ∃ a : Alert,
      (createAlert now rand pos
        { alertType := some alertType, alertRegion := some alertRegion,
          alertSeverity := some alertSeverity, alertImpact := some alertImpact,
          alertActions := some alertActions } d).data.alerts = a :: d.alerts ∧
      a.recommended_actions = split alertActions ∧
      a.recommended_actions ≠ [] ∧
      (∀ part ∈ a.recommended_actions, '\n' ∉ part.data) ∧
      a.recommended_actions.length = alertActions.data.count '\n' + 1 ∧
      "\n".intercalate a.recommended_actions = alertActions := by
  refine ⟨_, createAlert_present now rand pos d alertType alertRegion alertSeverity alertImpact
    alertActions, rfl, ?_, ?_, ?_, ?_⟩
  · show split alertActions ≠ []
    unfold split
    simpa using splitChars_ne_nil alertActions.data
  · intro part hp
    have hp' : part ∈ (splitChars alertActions.data).map String.mk := hp
    obtain ⟨chars, hchars, hmk⟩ := List.mem_map.mp hp'
    rw [← hmk]
    exact splitChars_no_newline _ chars hchars
  · show (split alertActions).length = _
    unfold split
    rw [List.length_map, splitChars_length]
  · show "\n".intercalate (split alertActions) = alertActions
    unfold split
    cases hs : splitChars alertActions.data with
    | nil => exact absurd hs (splitChars_ne_nil _)
    | cons first rest =>
      have hjoin := splitChars_join alertActions.data first rest hs
      apply String.ext
      simp only [List.map_cons, String.intercalate, intercalate_go_data, List.map_map]
      rw [← hjoin]
      rfl

/-- C19: the lookups of showRegionDetails and viewAlertDetails return a value
for every collection and identifier: when some entry has the identifier, the
first entry of the collection whose id equals it; when none has it, the absent
value, and then the operation returns with the data and the document as they
were and no exception. -/
theorem lookups_by_identifier :
    (∀ (regions : List Region) (regionId : String), (∃ r ∈ regions, r.id = regionId) →
      ∃ (pre : List Region) (r : Region) (post : List Region),
        regions = pre ++ r :: post ∧ r.id = regionId ∧ (∀ x ∈ pre, x.id ≠ regionId) ∧
        findRegion regions regionId = some r) ∧
    (∀ (alerts : List Alert) (alertId : String), (∃ a ∈ alerts, a.id = alertId) →
      ∃ (pre : List Alert) (a : Alert) (post : List Alert),
        alerts = pre ++ a :: post ∧ a.id = alertId ∧ (∀ x ∈ pre, x.id ≠ alertId) ∧
        findAlert alerts alertId = some a) ∧
    (∀ (template : Region → String) (regionId : String) (d : MockData) (dom : ModalDom),
      (∀ r ∈ d.coastalRegions, r.id ≠ regionId) →
      findRegion d.coastalRegions regionId = none ∧
      showRegionDetails template regionId d dom = { data := d, dom := dom, error := none }) ∧
    (∀ (template : Alert → String) (alertId : String) (d : MockData) (dom : ModalDom),
      (∀ a ∈ d.alerts, a.id ≠ alertId) →
      findAlert d.alerts alertId = none ∧
      viewAlertDetails template alertId d dom = { data := d, dom := dom, error := none }) := by
  refine ⟨?_, ?_, ?_, ?_⟩
  · intro regions regionId h
    obtain ⟨pre, r, post, hl, hr, hpre, hfind⟩ :=
      find?_first (fun r : Region => decide (r.id = regionId)) regions (by simpa using h)
    exact ⟨pre, r, post, hl, by simpa using hr, fun x hx => by simpa using hpre x hx, hfind⟩
  · intro alerts alertId h
    obtain ⟨pre, a, post, hl, ha, hpre, hfind⟩ :=
      find?_first (fun a : Alert => decide (a.id = alertId)) alerts (by simpa using h)
    exact ⟨pre, a, post, hl, by simpa using ha, fun x hx => by simpa using hpre x hx, hfind⟩
  · intro template regionId d dom h
    have hnone : findRegion d.coastalRegions regionId = none := by
      unfold findRegion
      rw [List.find?_eq_none]
      intro x hx
      simpa using h x hx
    exact ⟨hnone, by simp [showRegionDetails, hnone]⟩
  · intro template alertId d dom h
    have hnone : findAlert d.alerts alertId = none := by
      unfold findAlert
      rw [List.find?_eq_none]
      intro x hx
      simpa using h x hx
    exact ⟨hnone, by simp [viewAlertDetails, hnone]⟩

theorem lookups_by_identifier_witness :
    findAlert (seedData 0).alerts "ALERT_999" = none ∧
    viewAlertDetails (fun a => a.type) "ALERT_999" (seedData 0)
      { modalTitle := some "", modalBody := some "", modalHidden := some true } =
      { data := seedData 0
        dom := { modalTitle := some "", modalBody := some "", modalHidden := some true }
        error := none } :=
  lookups_by_identifier.2.2.2 (fun a => a.type) "ALERT_999" (seedData 0)
    { modalTitle := some "", modalBody := some "", modalHidden := some true } (by decide)

/-- C20: alerts are never deleted: for every state and every operation of the
core (createAlert, filterAlerts, simulateDataUpdates, refreshData, the two
lookups, getUserPreferences, saveUserPreferences), and so for every sequence
of them, the alert collection before is the tail end of the collection after:
every alert is still present with the same fields, in the same order, and the
length does not decrease. -/
theorem alerts_never_deleted (host : Host) (st : CoreState) :
    (∀ op : CoreOp, List.IsSuffix st.data.alerts (applyOp host st op).data.alerts) ∧
    (∀ ops : List CoreOp,
      List.IsSuffix st.data.alerts (runOps host st ops).data.alerts ∧
      List.Sublist st.data.alerts (runOps host st ops).data.alerts ∧
      st.data.alerts.length ≤ (runOps host st ops).data.alerts.length) := by
  refine ⟨applyOp_alerts host st, fun ops => ?_⟩
  have h := runOps_alerts host ops st
  exact ⟨h, h.sublist, h.length_le⟩

/-- C21: fetchWithApiKey calls fetch with the given url; when the apiKey of
the stored preference record is a non-empty text the headers passed to fetch
have Authorization equal to that key; when the key is the empty text or absent
the headers passed are the caller's, nothing being added; in every case each
header other than Authorization has the value that the caller supplied, and
the other properties of the options are passed as they are. -/
theorem fetchWithApiKey_authorization (parse : String → Option Json) (ls : LocalStorage)
    (url : String) (options : Option RequestOptions) :
    (fetchWithApiKey parse ls url options).url = url ∧
    (∀ key : String,
      getProp (getUserPreferences parse ls) "apiKey" = some (Json.str key) → key ≠ "" →
      ∃ headers : JsObject,
        (fetchWithApiKey parse ls url options).options.headers = some headers ∧
        getProp headers "Authorization" = some (Json.str key)) ∧
    (getProp (getUserPreferences parse ls) "apiKey" = some (Json.str "") ∨
        getProp (getUserPreferences parse ls) "apiKey" = none →
      (fetchWithApiKey parse ls url options).options.headers
        = some (suppliedHeaders options)) ∧
    (∀ name : String, name ≠ "Authorization" →
      ∃ headers : JsObject,
        (fetchWithApiKey parse ls url options).options.headers = some headers ∧
        getProp headers name = getProp (suppliedHeaders options) name) ∧
    (fetchWithApiKey parse ls url options).options.others
      = (options.getD { headers := none, others := [] }).others := by
  have hsupplied : (options.getD { headers := none, others := [] }).headers.getD []
      = suppliedHeaders options := by
    cases options <;> rfl
  refine ⟨rfl, ?_, ?_, ?_, rfl⟩
  · intro key hkey hne
    refine ⟨_, rfl, ?_⟩
    simp only [hkey, truthy, hne, ne_eq, not_false_eq_true, decide_True, if_true]
    rw [getProp_setProp]
    simp
  · intro h
    unfold fetchWithApiKey
    rcases h with h | h <;> simp [h, truthy, hsupplied]
  · intro name hname
    refine ⟨_, rfl, ?_⟩
    rw [hsupplied]
    by_cases ht : truthy (getProp (getUserPreferences parse ls) "apiKey") = true
    · cases hk : getProp (getUserPreferences parse ls) "apiKey" with
      | none => simp [hk]
      | some apiKey =>
        simp only [hk, ht, if_true]
        rw [hk] at ht
        simp only [ht, if_true]
        rw [getProp_setProp, if_neg (Ne.symm hname)]
    · simp only [ht]
      rfl

theorem fetchWithApiKey_authorization_witness :
    ∃ headers : JsObject,
      (fetchWithApiKey (fun _ => some (Json.obj [("apiKey", Json.str "secret")]))
        { items := [("coastalAlertPreferences", "stored")],
          accessDenied := false, quotaExceeded := false }
        "https://api.coastalguard.com/v1/alerts"
        (some { headers := some [("Accept", Json.str "application/json")],
                others := [] })).options.headers = some headers ∧
      getProp headers "Authorization" = some (Json.str "secret") :=
  (fetchWithApiKey_authorization (fun _ => some (Json.obj [("apiKey", Json.str "secret")]))
    { items := [("coastalAlertPreferences", "stored")],
      accessDenied := false, quotaExceeded := false }
    "https://api.coastalguard.com/v1/alerts"
    (some { headers := some [("Accept", Json.str "application/json")],
            others := [] })).2.1 "secret" rfl (by decide)

/-- C23: simulateDataUpdates changes only the drifting fields: the sensor,
weather, region and alert collections keep their lengths and the order of their
elements; every sensor keeps its station_id, location, salinity and ph_level
and has its timestamp set to the current time; every weather record keeps its
region, wind_direction, visibility, conditions and forecast_48h; every region
keeps its id, name, coordinates, current_threats and population_at_risk; the
alert collection and the threat-type list are unchanged. -/
theorem simulateDataUpdates_frame (now : Int) (rand : Nat → ℚ) (pos : Nat) (d : MockData) :
    ((simulateDataUpdates now rand pos d).data.sensors.length = d.sensors.length ∧
      (simulateDataUpdates now rand pos d).data.weather.length = d.weather.length ∧
      (simulateDataUpdates now rand pos d).data.coastalRegions.length
        = d.coastalRegions.length ∧
      (simulateDataUpdates now rand pos d).data.alerts.length = d.alerts.length) ∧
    (simulateDataUpdates now rand pos d).data.sensors.map
        (fun s => (s.station_id, s.location, s.salinity, s.ph_level)) =
      d.sensors.map (fun s => (s.station_id, s.location, s.salinity, s.ph_level)) ∧
    (∀ s ∈ (simulateDataUpdates now rand pos d).data.sensors, s.timestamp = now) ∧
    (simulateDataUpdates now rand pos d).data.weather.map
        (fun w => (w.region, w.wind_direction, w.visibility, w.conditions, w.forecast_48h)) =
      d.weather.map
        (fun w => (w.region, w.wind_direction, w.visibility, w.conditions, w.forecast_48h)) ∧
    (simulateDataUpdates now rand pos d).data.coastalRegions.map
        (fun r => (r.id, r.name, r.latitude, r.longitude, r.current_threats,
          r.population_at_risk)) =
      d.coastalRegions.map
        (fun r => (r.id, r.name, r.latitude, r.longitude, r.current_threats,
          r.population_at_risk)) ∧
    (simulateDataUpdates now rand pos d).data.alerts = d.alerts ∧
    (simulateDataUpdates now rand pos d).data.threatTypes = d.threatTypes := by
  have hs := updateSensors_frame now rand d.sensors pos
  have hw := updateWeathers_frame rand d.weather (updateSensors now rand pos d.sensors).2
  have hr := simulateDataUpdates_regions_frame now rand pos d
  rw [← simulateDataUpdates_sensors] at hs
  rw [← simulateDataUpdates_weather] at hw
  refine ⟨⟨?_, ?_, ?_, ?_⟩, hs.1, hs.2, hw, hr, simulateDataUpdates_alerts now rand pos d,
    simulateDataUpdates_threatTypes now rand pos d⟩
  · simpa using congrArg List.length hs.1
  · simpa using congrArg List.length hw
  · simpa using congrArg List.length hr
  · rw [simulateDataUpdates_alerts]

/-- C24: with d the current time minus the timestamp in milliseconds,
formatTime returns 'Just now' when d < 60000, negative d included; '<m>m ago'
with m = floor(d / 60000) and 1 <= m <= 59 when 60000 <= d < 3600000; '<h>h
ago' with h = floor(d / 3600000) and 1 <= h <= 23 when 3600000 <= d < 86400000;
and the absolute date and time when d >= 86400000, and only then. -/
theorem formatTime_cases (locale : Int → String) (now timestamp : Int) :
    (now - timestamp < 60000 → formatTime locale now timestamp = "Just now") ∧
    (60000 ≤ now - timestamp → now - timestamp < 3600000 →
      ∃ m : Int, formatTime locale now timestamp = toString m ++ "m ago" ∧
        m = ⌊((now - timestamp : Int) : ℚ) / 60000⌋ ∧ 1 ≤ m ∧ m ≤ 59) ∧
    (3600000 ≤ now - timestamp → now - timestamp < 86400000 →
      ∃ h : Int, formatTime locale now timestamp = toString h ++ "h ago" ∧
        h = ⌊((now - timestamp : Int) : ℚ) / 3600000⌋ ∧ 1 ≤ h ∧ h ≤ 23) ∧
    (86400000 ≤ now - timestamp → formatTime locale now timestamp = locale timestamp) := by
  refine ⟨?_, ?_, ?_, ?_⟩
  · intro h
    simp [formatTime, h]
  · intro h1 h2
    refine ⟨_, ?_, rfl, ?_, ?_⟩
    · simp [formatTime, not_lt.mpr h1, h2]
    · rw [Int.le_floor, le_div_iff₀ (by norm_num)]
      exact_mod_cast h1
    · have : ⌊((now - timestamp : Int) : ℚ) / 60000⌋ < 60 := by
        rw [Int.floor_lt, div_lt_iff₀ (by norm_num)]
        exact_mod_cast (by omega : now - timestamp < 60 * 60000)
      omega
  · intro h1 h2
    have h0 : ¬ now - timestamp < 60000 := by omega
    refine ⟨_, ?_, rfl, ?_, ?_⟩
    · simp [formatTime, h0, not_lt.mpr h1, h2]
    · rw [Int.le_floor, le_div_iff₀ (by norm_num)]
      exact_mod_cast h1
    · have : ⌊((now - timestamp : Int) : ℚ) / 3600000⌋ < 24 := by
        rw [Int.floor_lt, div_lt_iff₀ (by norm_num)]
        exact_mod_cast (by omega : now - timestamp < 24 * 3600000)
      omega
  · intro h
    have h0 : ¬ now - timestamp < 60000 := by omega
    have h1 : ¬ now - timestamp < 3600000 := by omega
    have h2 : ¬ now - timestamp < 86400000 := by omega
    simp [formatTime, h0, h1, h2]

theorem formatTime_cases_witness :
    formatTime (fun _ => "1/1/2026 10:00 AM") 0 5000 = "Just now" ∧
    (∃ m : Int, formatTime (fun _ => "1/1/2026 10:00 AM") 2700000 0 = toString m ++ "m ago" ∧
      m = ⌊((2700000 - 0 : Int) : ℚ) / 60000⌋ ∧ 1 ≤ m ∧ m ≤ 59) ∧
    formatTime (fun _ => "1/1/2026 10:00 AM") 86400000 0 = "1/1/2026 10:00 AM" :=
  ⟨(formatTime_cases (fun _ => "1/1/2026 10:00 AM") 0 5000).1 (by decide),
   (formatTime_cases (fun _ => "1/1/2026 10:00 AM") 2700000 0).2.1 (by decide) (by decide),
   (formatTime_cases (fun _ => "1/1/2026 10:00 AM") 86400000 0).2.2.2 (by decide)⟩

end CoastalAlertSystem
